import Mathlib

/-!
StarPU scheduler core: policy selection, push, pop, wait and shutdown.

A shallow embedding of `src/core/policies/sched_policy.c`, of `get_block_rank` from
`mpi/examples/mpi_lu/plu_example.c`, of the creation of the initial objects and of a parallel
region in `src/util/openmp_runtime_support.c`, and of the initialisation loops of
`examples/filters/fndim.c`.

* C strings are `String` (the bytes before the terminator); a null `char *` is `none`.
* Pointers are `Option` values: `none` is `NULL`.
* Function pointers are addresses (`FnPtr`); what a call through one does is given by the
  collaborators record `Env`, and every call is also recorded in a list of `Call`s.
* A run ends in `Outcome.value` (normal return), `Outcome.abort` (a failed `STARPU_ASSERT`) or
  `Outcome.fault` (a call or a read through a null pointer).
-/

namespace StarPU

/-! ## Data model -/

/-- Address of a function. A null function pointer is `none : Option FnPtr`. -/
abbrev FnPtr := Nat

/-- Modelled from the spec: the seven built-in policy objects (`sched_ws_policy`, ...), whose
declarations live in the policy headers included by `sched_policy.c` and are not part of the
sources at hand. A `PolicyPtr` is a non-null `struct sched_policy_s *`: the address of one of
the seven built-in objects, or of an object supplied by the application. -/
inductive PolicyPtr
  | sched_ws_policy
  | sched_prio_policy
  | sched_no_prio_policy
  | sched_dm_policy
  | sched_dmda_policy
  | sched_random_policy
  | sched_eager_policy
  | user (addr : Nat)
  deriving DecidableEq, Repr

/-- The fields of `struct starpu_conf` read by `select_sched_policy`. -/
structure starpu_conf where
  sched_policy_name : Option String
  sched_policy : Option PolicyPtr
  deriving DecidableEq, Repr

/-- The field of `struct machine_config_s` read by `select_sched_policy`. -/
structure machine_config_s where
  user_conf : Option starpu_conf
  deriving DecidableEq, Repr

/-- The process environment, as seen through `getenv`. -/
abbrev Environ := String → Option String

/-- Character-wise comparison behind `strcmp`: the sign of the first difference. -/
def strcmp_chars : List Char → List Char → Int
  | [], [] => 0
  | [], _ :: _ => -1
  | _ :: _, [] => 1
  | x :: xs, y :: ys =>
    if x = y then strcmp_chars xs ys else if x.toNat < y.toNat then -1 else 1

/-- The libc `strcmp`: zero on equal strings, otherwise the sign of the first difference. -/
def strcmp (a b : String) : Int :=
  strcmp_chars a.data b.data

/-! ## Policy registry and selector -/

/-- `find_sched_policy_from_name` (sched_policy.c, lines 66-95). -/
def find_sched_policy_from_name (policy_name : Option String) : Option PolicyPtr :=
  match policy_name with
  | none => none
  | some name =>
    if strcmp name "ws" = 0 then some PolicyPtr.sched_ws_policy
    else if strcmp name "prio" = 0 then some PolicyPtr.sched_prio_policy
    else if strcmp name "no-prio" = 0 then some PolicyPtr.sched_no_prio_policy
    else if strcmp name "dm" = 0 then some PolicyPtr.sched_dm_policy
    else if strcmp name "dmda" = 0 then some PolicyPtr.sched_dmda_policy
    else if strcmp name "random" = 0 then some PolicyPtr.sched_random_policy
    else if strcmp name "eager" = 0 then some PolicyPtr.sched_eager_policy
    else none

/-- `select_sched_policy` (sched_policy.c, lines 112-135). -/
def select_sched_policy (getenv : Environ) (config : machine_config_s) : Option PolicyPtr :=
  let user_conf := config.user_conf
  -- if (user_conf && (user_conf->sched_policy)) return user_conf->sched_policy;
  match user_conf.bind (fun c => c.sched_policy) with
  | some p => some p
  | none =>
    -- if (user_conf && (user_conf->sched_policy_name)) ... else sched_pol_name = getenv("SCHED");
    let sched_pol_name : Option String :=
      match user_conf.bind (fun c => c.sched_policy_name) with
      | some n => some n
      | none => getenv "SCHED"
    -- if (sched_pol_name) return find_sched_policy_from_name(sched_pol_name);
    match sched_pol_name with
    | some n => find_sched_policy_from_name (some n)
    | none => some PolicyPtr.sched_eager_policy

/-! ## Runs, calls and collaborators -/

/-- How a run of a function ends: a normal return, a failed `STARPU_ASSERT`, or a call or read
through a null pointer. -/
inductive Outcome (α : Type)
  | value (a : α)
  | abort
  | fault
  deriving DecidableEq, Repr

/-- Modelled from the spec: the macro `STARPU_ASSERT`, defined in a header that is not part of
the sources at hand. A failed assertion is a fatal internal consistency violation and aborts
the process; a passing one has no effect. -/
def STARPU_ASSERT (x : Bool) : Outcome Unit :=
  if x then Outcome.value () else Outcome.abort

/-- The fields of the task description read by `push_task`: the codelet pointer (`none` for a
control task), the pinning flag (a C truth value: non-zero means set) and the target worker. -/
structure starpu_task where
  cl : Option Nat
  execute_on_a_specific_worker : Nat
  workerid : Nat
  deriving DecidableEq, Repr

/-- A job (`struct job_s`), as far as the scheduler entry points look into it. -/
structure job_s where
  addr : Nat
  task : starpu_task
  deriving DecidableEq, Repr

/-- A queue (`struct jobq_s`): its address and its three operations, each a function pointer
that may be null. -/
structure jobq_s where
  addr : Nat
  push_task : Option FnPtr
  pop_task : Option FnPtr
  pop_every_task : Option FnPtr
  deriving DecidableEq, Repr

/-- Life cycle of a pthread object embedded in the policy record. -/
inductive ObjState
  | raw
  | live
  | dead
  deriving DecidableEq, Repr

/-- The policy record `struct sched_policy_s`: three operations, the two strings printed by a
verbose build, and the three synchronization objects. -/
structure sched_policy_s where
  init_sched : Option FnPtr
  deinit_sched : Option FnPtr
  get_local_queue : Option FnPtr
  policy_name : Option String
  policy_description : Option String
  sched_activity_cond : ObjState
  sched_activity_mutex : ObjState
  local_queue_key : ObjState
  deriving DecidableEq, Repr

/-- Compile-time switches read by `sched_policy.c`. -/
structure Build where
  VERBOSE : Bool
  NON_BLOCKING_DRIVERS : Bool
  deriving DecidableEq, Repr

/-- A call made by the scheduler entry points, in the order of the source. The pthread calls
on a queue name the queue whose `activity_mutex` or `activity_cond` they act on; the pthread
calls without an argument act on the objects of the process-wide policy record.
`pthread_cond_broadcast` is called nowhere in `sched_policy.c`; it is listed so that
statements can speak about it. -/
inductive Call
  | fprintf (text : String)
  | pthread_cond_init
  | pthread_mutex_init
  | pthread_key_create
  | init_sched (f : FnPtr)
  | get_local_queue (f : FnPtr)
  | handle_job_termination (j : job_s)
  | get_worker_struct (workerid : Nat)
  | push_local_task (worker : Nat) (j : job_s)
  | queue_push_task (f : FnPtr) (queue : jobq_s) (j : job_s)
  | queue_pop_task (f : FnPtr) (queue : jobq_s)
  | queue_pop_every_task (f : FnPtr) (queue : jobq_s) (where_mask : Nat)
  | pthread_mutex_lock (mutex_of : jobq_s)
  | pthread_mutex_unlock (mutex_of : jobq_s)
  | pthread_cond_wait (cond_of : jobq_s) (mutex_of : jobq_s)
  | pthread_cond_broadcast (cond_of : jobq_s)
  | get_local_memory_node
  | handle_all_pending_node_data_requests (node : Nat)
  | machine_is_running
  | deinit_sched (f : FnPtr)
  | pthread_key_delete
  | pthread_mutex_destroy
  | pthread_cond_destroy
  deriving DecidableEq, Repr

/-- The collaborators of the scheduler core, over a state `σ` of their own: the process
environment, the contents of the policy objects, and the functions the entry points call,
directly or through a function pointer. A worker is denoted by the address of its
`struct worker_s`. A popped job is `none` when the queue had nothing to give, a popped list is
`none` for a null list pointer. `pthread_cond_wait` gives the state at wake-up. -/
structure Env (σ : Type) where
  getenv : Environ
  deref : PolicyPtr → sched_policy_s
  init_sched : FnPtr → machine_config_s → sched_policy_s → σ → sched_policy_s × σ
  get_local_queue : FnPtr → sched_policy_s → σ → Option jobq_s × σ
  handle_job_termination : job_s → σ → σ
  get_worker_struct : Nat → σ → Nat × σ
  push_local_task : Nat → job_s → σ → Int × σ
  queue_push_task : FnPtr → jobq_s → job_s → σ → Int × σ
  queue_pop_task : FnPtr → jobq_s → σ → Option job_s × σ
  queue_pop_every_task : FnPtr → jobq_s → Nat → σ → Option (List job_s) × σ
  pthread_mutex_lock : jobq_s → σ → σ
  pthread_mutex_unlock : jobq_s → σ → σ
  pthread_cond_wait : jobq_s → σ → σ
  get_local_memory_node : σ → Nat × σ
  handle_all_pending_node_data_requests : Nat → σ → σ
  machine_is_running : σ → Bool × σ
  deinit_sched : FnPtr → machine_config_s → sched_policy_s → σ → sched_policy_s × σ

/-- What a run leaves behind: the calls it made, oldest first, the state it ends in, and how
it ended. -/
structure Run (σ α : Type) where
  calls : List Call
  state : σ
  out : Outcome α

/-! ## Policy loading -/

/-- The lines printed by `display_sched_help_message`, in order. -/
def sched_help_lines : List String :=
  ["SCHED can be either of\n",
   "ws\twork stealing\n",
   "prio\tprio eager\n",
   "no-prio\teager (without prio)\n",
   "dm\tperformance model\n",
   "dmda\tdata-aware performance model\n",
   "random\trandom\n",
   "else the eager scheduler will be used\n"]

/-- `display_sched_help_message` (sched_policy.c, lines 97-110): the calls it makes. -/
def display_sched_help_message (getenv : Environ) : List Call :=
  match getenv "SCHED" with
  | some sched_env =>
    if strcmp sched_env "help" = 0 then sched_help_lines.map Call.fprintf else []
  | none => []

/-- The output of the `VERBOSE` block of `load_sched_policy` (lines 43-55). -/
def load_sched_policy_verbose (sched_policy : sched_policy_s) : List Call :=
  match sched_policy.policy_name with
  | some name =>
    [Call.fprintf ("Use " ++ name ++ " scheduler")]
      ++ (match sched_policy.policy_description with
          | some description => [Call.fprintf (" (" ++ description ++ ")")]
          | none => [])
      ++ [Call.fprintf "\n"]
  | none => []

/-- `load_sched_policy` (sched_policy.c, lines 39-64), run on the process-wide record
`policy`. -/
def load_sched_policy {σ : Type} (build : Build) (env : Env σ) (policy : sched_policy_s)
    (sched_policy : Option PolicyPtr) : Run sched_policy_s Unit :=
  match STARPU_ASSERT sched_policy.isSome with
  | Outcome.value _ =>
    match sched_policy with
    | some p =>
      let src := env.deref p
      { calls := (if build.VERBOSE then load_sched_policy_verbose src else [])
          ++ [Call.pthread_cond_init, Call.pthread_mutex_init, Call.pthread_key_create]
        state := { policy with
          init_sched := src.init_sched
          deinit_sched := src.deinit_sched
          get_local_queue := src.get_local_queue
          sched_activity_cond := ObjState.live
          sched_activity_mutex := ObjState.live
          local_queue_key := ObjState.live }
        out := Outcome.value () }
    | none => { calls := [], state := policy, out := Outcome.fault }
  | Outcome.abort => { calls := [], state := policy, out := Outcome.abort }
  | Outcome.fault => { calls := [], state := policy, out := Outcome.fault }

/-- `init_sched_policy` (sched_policy.c, lines 137-148). The state is the process-wide record
`policy` together with the state of the collaborators. -/
def init_sched_policy {σ : Type} (build : Build) (env : Env σ) (config : machine_config_s)
    (policy : sched_policy_s) (s : σ) : Run (sched_policy_s × σ) Unit :=
  let help := display_sched_help_message env.getenv
  let selected_policy := select_sched_policy env.getenv config
  let loaded := load_sched_policy build env policy selected_policy
  match loaded.out with
  | Outcome.value _ =>
    match loaded.state.init_sched with
    | some f =>
      { calls := help ++ loaded.calls ++ [Call.init_sched f]
        state := env.init_sched f config loaded.state s
        out := Outcome.value () }
    | none => { calls := help ++ loaded.calls, state := (loaded.state, s), out := Outcome.fault }
  | Outcome.abort => { calls := help ++ loaded.calls, state := (loaded.state, s), out := Outcome.abort }
  | Outcome.fault => { calls := help ++ loaded.calls, state := (loaded.state, s), out := Outcome.fault }

/-! ## The push path -/

/-- `push_task` (sched_policy.c, lines 161-184), run with the process-wide record `policy`. -/
def push_task {σ : Type} (env : Env σ) (policy : sched_policy_s) (j : job_s) (s : σ) :
    Run σ Int :=
  match policy.get_local_queue with
  | none => { calls := [], state := s, out := Outcome.fault }
  | some g =>
    let got := env.get_local_queue g policy s
    let queue := got.1
    if j.task.cl = none then
      { calls := [Call.get_local_queue g, Call.handle_job_termination j]
        state := env.handle_job_termination j got.2
        out := Outcome.value 0 }
    else if j.task.execute_on_a_specific_worker ≠ 0 then
      let worker := env.get_worker_struct j.task.workerid got.2
      let pushed := env.push_local_task worker.1 j worker.2
      { calls := [Call.get_local_queue g, Call.get_worker_struct j.task.workerid,
          Call.push_local_task worker.1 j]
        state := pushed.2
        out := Outcome.value pushed.1 }
    else
      match queue with
      | none => { calls := [Call.get_local_queue g], state := got.2, out := Outcome.fault }
      | some q =>
        match STARPU_ASSERT q.push_task.isSome with
        | Outcome.value _ =>
          match q.push_task with
          | some f =>
            let pushed := env.queue_push_task f q j got.2
            { calls := [Call.get_local_queue g, Call.queue_push_task f q j]
              state := pushed.2
              out := Outcome.value pushed.1 }
          | none => { calls := [Call.get_local_queue g], state := got.2, out := Outcome.fault }
        | Outcome.abort =>
          { calls := [Call.get_local_queue g], state := got.2, out := Outcome.abort }
        | Outcome.fault =>
          { calls := [Call.get_local_queue g], state := got.2, out := Outcome.fault }

/-! ## The pop path -/

/-- `pop_task_from_queue` (sched_policy.c, lines 186-193). -/
def pop_task_from_queue {σ : Type} (env : Env σ) (queue : Option jobq_s) (s : σ) :
    Run σ (Option job_s) :=
  match queue with
  | none => { calls := [], state := s, out := Outcome.fault }
  | some q =>
    match STARPU_ASSERT q.pop_task.isSome with
    | Outcome.value _ =>
      match q.pop_task with
      | some f =>
        let j := env.queue_pop_task f q s
        { calls := [Call.queue_pop_task f q], state := j.2, out := Outcome.value j.1 }
      | none => { calls := [], state := s, out := Outcome.fault }
    | Outcome.abort => { calls := [], state := s, out := Outcome.abort }
    | Outcome.fault => { calls := [], state := s, out := Outcome.fault }

/-- `pop_task` (sched_policy.c, lines 195-200). -/
def pop_task {σ : Type} (env : Env σ) (policy : sched_policy_s) (s : σ) :
    Run σ (Option job_s) :=
  match policy.get_local_queue with
  | none => { calls := [], state := s, out := Outcome.fault }
  | some g =>
    let got := env.get_local_queue g policy s
    let popped := pop_task_from_queue env got.1 got.2
    { calls := Call.get_local_queue g :: popped.calls, state := popped.state
      out := popped.out }

/-- `pop_every_task_from_queue` (sched_policy.c, lines 202-209); `where_mask` is the
parameter `where` of the source. -/
def pop_every_task_from_queue {σ : Type} (env : Env σ) (queue : Option jobq_s)
    (where_mask : Nat) (s : σ) : Run σ (Option (List job_s)) :=
  match queue with
  | none => { calls := [], state := s, out := Outcome.fault }
  | some q =>
    match STARPU_ASSERT q.pop_every_task.isSome with
    | Outcome.value _ =>
      match q.pop_every_task with
      | some f =>
        let list := env.queue_pop_every_task f q where_mask s
        { calls := [Call.queue_pop_every_task f q where_mask], state := list.2
          out := Outcome.value list.1 }
      | none => { calls := [], state := s, out := Outcome.fault }
    | Outcome.abort => { calls := [], state := s, out := Outcome.abort }
    | Outcome.fault => { calls := [], state := s, out := Outcome.fault }

/-- `pop_every_task` (sched_policy.c, lines 212-217). -/
def pop_every_task {σ : Type} (env : Env σ) (policy : sched_policy_s) (where_mask : Nat)
    (s : σ) : Run σ (Option (List job_s)) :=
  match policy.get_local_queue with
  | none => { calls := [], state := s, out := Outcome.fault }
  | some g =>
    let got := env.get_local_queue g policy s
    let popped := pop_every_task_from_queue env got.1 where_mask got.2
    { calls := Call.get_local_queue g :: popped.calls, state := popped.state
      out := popped.out }

/-! ## Waiting for work -/

/-- `wait_on_sched_event` (sched_policy.c, lines 219-235). A null queue makes the first
access through `q` a fault. -/
def wait_on_sched_event {σ : Type} (build : Build) (env : Env σ) (policy : sched_policy_s)
    (s : σ) : Run σ Unit :=
  match policy.get_local_queue with
  | none => { calls := [], state := s, out := Outcome.fault }
  | some g =>
    let got := env.get_local_queue g policy s
    match got.1 with
    | none => { calls := [Call.get_local_queue g], state := got.2, out := Outcome.fault }
    | some q =>
      let locked := env.pthread_mutex_lock q got.2
      let node := env.get_local_memory_node locked
      let drained := env.handle_all_pending_node_data_requests node.1 node.2
      let running := env.machine_is_running drained
      let before_wait := [Call.get_local_queue g, Call.pthread_mutex_lock q,
        Call.get_local_memory_node, Call.handle_all_pending_node_data_requests node.1,
        Call.machine_is_running]
      if running.1 = true ∧ build.NON_BLOCKING_DRIVERS = false then
        { calls := before_wait ++ [Call.pthread_cond_wait q q, Call.pthread_mutex_unlock q]
          state := env.pthread_mutex_unlock q (env.pthread_cond_wait q running.2)
          out := Outcome.value () }
      else
        { calls := before_wait ++ [Call.pthread_mutex_unlock q]
          state := env.pthread_mutex_unlock q running.2
          out := Outcome.value () }

/-! ## Shutdown -/

/-- `deinit_sched_policy` (sched_policy.c, lines 150-158). The state is the process-wide
record `policy` together with the state of the collaborators. -/
def deinit_sched_policy {σ : Type} (env : Env σ) (config : machine_config_s)
    (policy : sched_policy_s) (s : σ) : Run (sched_policy_s × σ) Unit :=
  let called : List Call × (sched_policy_s × σ) :=
    match policy.deinit_sched with
    | some f => ([Call.deinit_sched f], env.deinit_sched f config policy s)
    | none => ([], (policy, s))
  { calls := called.1
      ++ [Call.pthread_key_delete, Call.pthread_mutex_destroy, Call.pthread_cond_destroy]
    state := ({ called.2.1 with
      local_queue_key := ObjState.dead
      sched_activity_mutex := ObjState.dead
      sched_activity_cond := ObjState.dead }, called.2.2)
    out := Outcome.value () }

/-! ## Pinned jobs and device capability -/

/-- Modelled from the spec: the distinguished no-device status that `push_task` hands up when
a job has no eligible worker; its value is defined outside the sources at hand (the usual
choice, the negated `ENODEV`, is taken here). -/
def NO_DEVICE_STATUS : Int := -19

/-- Modelled from the spec: `push_local_task`, which `push_task` calls for a pinned job and
which is defined in a file that is not part of the sources at hand. The device-capability
query `can_execute` validates that the worker can execute the codelet of the job: if it can,
the job is put in the local queue of that worker (`enqueue`) and the push is accepted with
status 0; if it cannot, the no-device status is returned and no queue is touched. -/
def push_local_task_spec {σ : Type} (can_execute : Nat → job_s → σ → Bool)
    (enqueue : Nat → job_s → σ → σ) (worker : Nat) (j : job_s) (s : σ) : Int × σ :=
  if can_execute worker j s = true then (0, enqueue worker j s) else (NO_DEVICE_STATUS, s)

/-! ## The process state -/

/-- `get_sched_policy` (sched_policy.c, lines 34-37): it returns the address of the static
record `policy`. Every collaborator can call it, and `get_local_queue`, `init_sched` and
`deinit_sched` are handed that address, so the record belongs to what the collaborators can
read and write: a process state is a pair of the record and the rest, and
`get_sched_policy` gives access to its first component. The entry points read the static
`policy` of the state `w` they start in: they are run as `push_task env w.1 j w`. -/
def get_sched_policy {σ : Type} (w : sched_policy_s × σ) : sched_policy_s :=
  w.1

/-- No collaborator writes the record: each of the functions the four entry points call
leaves the first component of the process state as it found it. -/
def keeps_policy_record {σ : Type} (env : Env (sched_policy_s × σ)) : Prop :=
  (∀ f policy w, (env.get_local_queue f policy w).2.1 = w.1)
  ∧ (∀ j w, (env.handle_job_termination j w).1 = w.1)
  ∧ (∀ workerid w, (env.get_worker_struct workerid w).2.1 = w.1)
  ∧ (∀ worker j w, (env.push_local_task worker j w).2.1 = w.1)
  ∧ (∀ f q j w, (env.queue_push_task f q j w).2.1 = w.1)
  ∧ (∀ f q w, (env.queue_pop_task f q w).2.1 = w.1)
  ∧ (∀ f q where_mask w, (env.queue_pop_every_task f q where_mask w).2.1 = w.1)
  ∧ (∀ q w, (env.pthread_mutex_lock q w).1 = w.1)
  ∧ (∀ q w, (env.pthread_mutex_unlock q w).1 = w.1)
  ∧ (∀ q w, (env.pthread_cond_wait q w).1 = w.1)
  ∧ (∀ w, (env.get_local_memory_node w).2.1 = w.1)
  ∧ (∀ node w, (env.handle_all_pending_node_data_requests node w).1 = w.1)
  ∧ (∀ w, (env.machine_is_running w).2.1 = w.1)

/-! ## Block-cyclic distribution of the LU example -/

/-- Conversion of an `unsigned` value to `int`: 32 bits, two's complement. -/
def int_of_unsigned (x : Nat) : Int :=
  if x % 2 ^ 32 < 2 ^ 31 then ((x % 2 ^ 32 : Nat) : Int) else ((x % 2 ^ 32 : Nat) : Int) - 2 ^ 32

/-- The value an `int` takes for the mathematical result `x` of an `int` operation: 32 bits,
two's complement, wrapping around. -/
def int_wrap (x : Int) : Int :=
  (x + 2 ^ 31) % 2 ^ 32 - 2 ^ 31

/-- `get_block_rank` (plu_example.c, lines 199-204), with the file-level `unsigned` variables
`p` and `q` as parameters: `(j % q) * p + (i % p)` in `unsigned` arithmetic, which wraps at
`2 ^ 32`, returned as an `int`. -/
def get_block_rank (p q i j : Nat) : Int :=
  int_of_unsigned (((j % q) * p % 2 ^ 32 + i % p) % 2 ^ 32)

/-! ## OpenMP parallel regions

The structures of `src/util/openmp_runtime_support.c`. A pointer is the address of the object
it points to; the intrusive lists of a region hold the thread and task structures
themselves. -/

/-- The allocator: the next fresh address, and how many more calls of `malloc` succeed. -/
structure omp_heap where
  next : Nat
  budget : Nat
  deriving DecidableEq, Repr

/-- The libc `malloc`: a fresh address, or `none` (a null pointer) when memory is exhausted. -/
def malloc (h : omp_heap) : Option Nat × omp_heap :=
  if h.budget = 0 then (none, h) else (some h.next, { next := h.next + 1, budget := h.budget - 1 })

/-- The fields of `struct starpu_omp_thread` set by `create_omp_thread_struct`. -/
structure starpu_omp_thread where
  addr : Nat
  current_task : Option Nat
  owner_region : Option Nat
  primary_task : Option Nat
  initial_thread_stack : Option Nat
  deriving DecidableEq, Repr

/-- The fields of `struct starpu_omp_task` that `create_omp_task_struct` sets to something
other than a null pointer or zeroes. -/
structure starpu_omp_task where
  addr : Nat
  parent_task : Option Nat
  owner_thread : Option Nat
  owner_region : Option Nat
  is_implicit : Int
  stack : Option Nat
  deriving DecidableEq, Repr

/-- The fields of `struct starpu_omp_region` set by `create_omp_region_struct`. -/
structure starpu_omp_region where
  addr : Nat
  parent_region : Option Nat
  initial_nested_region : Option Nat
  owner_device : Option Nat
  thread_list : List starpu_omp_thread
  implicit_task_list : List starpu_omp_task
  nb_threads : Int
  level : Int
  deriving DecidableEq, Repr

/-- `create_omp_region_struct` (openmp_runtime_support.c, lines 53-68). A failed allocation
ends in `_STARPU_ERROR`, which aborts. The field `level` is an `int`: `parent_region->level+1`
wraps around at the largest `int`. -/
def create_omp_region_struct (parent_region : Option starpu_omp_region)
    (owner_device : Option Nat) (nb_threads : Int) (h : omp_heap) :
    Outcome starpu_omp_region × omp_heap :=
  match malloc h with
  | (none, h1) => (Outcome.abort, h1)
  | (some region, h1) =>
    (Outcome.value
      { addr := region
        parent_region := parent_region.map (fun r => r.addr)
        initial_nested_region := none
        owner_device := owner_device
        thread_list := []
        implicit_task_list := []
        nb_threads := nb_threads
        level := match parent_region with
          | some r => int_wrap (r.level + 1)
          | none => 0 }, h1)

/-- `create_omp_thread_struct` (openmp_runtime_support.c, lines 142-159). -/
def create_omp_thread_struct (owner_region : Option Nat) (h : omp_heap) :
    Outcome starpu_omp_thread × omp_heap :=
  match malloc h with
  | (none, h1) => (Outcome.abort, h1)
  | (some thread, h1) =>
    (Outcome.value
      { addr := thread
        current_task := none
        owner_region := owner_region
        primary_task := none
        initial_thread_stack := none }, h1)

/-- `create_omp_task_struct` (openmp_runtime_support.c, lines 269-316). -/
def create_omp_task_struct (parent_task : Option Nat) (owner_thread : Option Nat)
    (owner_region : Option Nat) (is_implicit : Int) (h : omp_heap) :
    Outcome starpu_omp_task × omp_heap :=
  match malloc h with
  | (none, h1) => (Outcome.abort, h1)
  | (some task, h1) =>
    match parent_task with
    | none =>
      (Outcome.value
        { addr := task, parent_task := parent_task, owner_thread := owner_thread
          owner_region := owner_region, is_implicit := is_implicit, stack := none }, h1)
    | some _ =>
      match malloc h1 with
      | (none, h2) => (Outcome.abort, h2)
      | (some stack, h2) =>
        (Outcome.value
          { addr := task, parent_task := parent_task, owner_thread := owner_thread
            owner_region := owner_region, is_implicit := is_implicit, stack := some stack }, h2)

/-- The values stored under the two thread-specific keys of the calling thread: the thread
structure under `omp_thread_key` and the task structure under `omp_task_key`; `none` is the
null pointer that `pthread_getspecific` returns for a key that was never set. -/
structure omp_thread_specific where
  omp_thread_key : Option starpu_omp_thread
  omp_task_key : Option starpu_omp_task
  deriving DecidableEq, Repr

/-- The region a region pointer points to, among the region structures in memory; `none` for
a null pointer and for a pointer to no region. -/
def region_at (regions : List starpu_omp_region) (pointer : Option Nat) :
    Option starpu_omp_region :=
  pointer.bind (fun a => regions.find? (fun r => r.addr = a))

/-- The loop of `starpu_parallel_region` (openmp_runtime_support.c, lines 370-379), with
`remaining` iterations to go from index `i`. The lists are intrusive: pushing an element
writes the link fields of the element, so pushing a null `master_thread` is a fault. -/
def parallel_region_loop (master_thread : Option starpu_omp_thread)
    (parent_task : starpu_omp_task) :
    (remaining : Nat) → (i : Int) → starpu_omp_region → omp_heap →
    Outcome starpu_omp_region × omp_heap
  | 0, _, new_region, h => (Outcome.value new_region, h)
  | remaining + 1, i, new_region, h =>
    match (if i = 0 then
          (match master_thread with
            | some thread => (Outcome.value thread, h)
            | none => (Outcome.fault, h))
        else create_omp_thread_struct (some new_region.addr) h) with
    | (Outcome.value new_thread, h1) =>
      match create_omp_task_struct (some parent_task.addr) (some new_thread.addr)
          (some new_region.addr) 1 h1 with
      | (Outcome.value new_task, h2) =>
        parallel_region_loop master_thread parent_task remaining (i + 1)
          { new_region with
            thread_list := new_region.thread_list ++ [new_thread]
            implicit_task_list := new_region.implicit_task_list ++ [new_task] } h2
      | (Outcome.abort, h2) => (Outcome.abort, h2)
      | (Outcome.fault, h2) => (Outcome.fault, h2)
    | (Outcome.abort, h1) => (Outcome.abort, h1)
    | (Outcome.fault, h1) => (Outcome.fault, h1)

/-- The number of threads computed by `starpu_parallel_region` (line 364), from the result
of `starpu_cpu_worker_get_count()`, an `unsigned`, and the level of the parent region. -/
def parallel_region_nb_threads (cpu_worker_count : Nat) (parent_region : starpu_omp_region) :
    Int :=
  if parent_region.level = 0 then int_of_unsigned cpu_worker_count else 1

/-- `starpu_parallel_region` (openmp_runtime_support.c, lines 354-379): the creation of the
new region and of its threads and implicit tasks. `keys` holds what the calling thread finds
under `omp_thread_key` and `omp_task_key`, `regions` are the region structures in memory,
`initial_device` is `_global_state.initial_device`. Reading `parent_task->owner_region`
(line 358) with no task under `omp_task_key`, and reading `parent_region->level` (line 364)
through a pointer to no region, are faults. The rest of the function creates and submits the
StarPU tasks and leaves the two lists of the region as they are. -/
def starpu_parallel_region (cpu_worker_count : Nat) (initial_device : Option Nat)
    (keys : omp_thread_specific) (regions : List starpu_omp_region) (h : omp_heap) :
    Outcome starpu_omp_region × omp_heap :=
  let master_thread := keys.omp_thread_key
  match keys.omp_task_key with
  | none => (Outcome.fault, h)
  | some parent_task =>
    match region_at regions parent_task.owner_region with
    | none => (Outcome.fault, h)
    | some parent_region =>
      let nb_threads := parallel_region_nb_threads cpu_worker_count parent_region
      match create_omp_region_struct (some parent_region) initial_device 1 h with
      | (Outcome.value new_region, h1) =>
        parallel_region_loop master_thread parent_task nb_threads.toNat 0 new_region h1
      | (Outcome.abort, h1) => (Outcome.abort, h1)
      | (Outcome.fault, h1) => (Outcome.fault, h1)

/-- The thread that iteration `i` of the loop of `starpu_parallel_region` appends, for a new
region at address `region`: the master thread for `i = 0`, and else a new thread, allocated
third after the region by each earlier iteration. -/
def parallel_region_thread (region : Nat) (master_thread : starpu_omp_thread) (i : Nat) :
    starpu_omp_thread :=
  if i = 0 then master_thread
  else
    { addr := region + 3 * i, current_task := none, owner_region := some region
      primary_task := none, initial_thread_stack := none }

/-- The implicit task that iteration `i` of the loop of `starpu_parallel_region` appends: it
is allocated right after the thread of the iteration and followed by its stack. -/
def parallel_region_task (region : Nat) (master_thread : starpu_omp_thread)
    (parent_task : starpu_omp_task) (i : Nat) : starpu_omp_task :=
  { addr := region + 3 * i + 1
    parent_task := some parent_task.addr
    owner_thread := some (parallel_region_thread region master_thread i).addr
    owner_region := some region
    is_implicit := 1
    stack := some (region + 3 * i + 2) }

/-! ## The 4D filter example -/

/-- The extents `NX`, `NY`, `NZ`, `NT` of `fndim.c` (lines 24-27). -/
def NX : Nat := 6

/-- The extent along Y. -/
def NY : Nat := 5

/-- The extent along Z. -/
def NZ : Nat := 4

/-- The extent along T. -/
def NT : Nat := 3

/-- The array `ndim_arr` while `main` fills it: its cells (`none` is a cell that was never
written; there are as many cells as `malloc` was asked for), the counter `n`, the indices
written so far, oldest first, and whether every write so far was inside the array. -/
structure fndim_state where
  ndim_arr : List (Option Int)
  n : Int
  written : List Nat
  in_bounds : Bool
  deriving DecidableEq, Repr

/-- The state after `malloc(NX*NY*NZ*NT*sizeof(ndim_arr[0]))` and `n=0` (fndim.c, lines
39-44). -/
def fndim_start : fndim_state :=
  { ndim_arr := List.replicate (NX * NY * NZ * NT) none, n := 0, written := [], in_bounds := true }

/-- The statement `ndim_arr[(l*NX*NY*NZ)+(k*NX*NY)+(j*NX)+i] = n++;` (fndim.c, line 53). -/
def fndim_store (l k j i : Nat) (s : fndim_state) : fndim_state :=
  let index := (l * NX * NY * NZ) + (k * NX * NY) + (j * NX) + i
  { ndim_arr := s.ndim_arr.set index (some s.n)
    n := s.n + 1
    written := s.written ++ [index]
    in_bounds := s.in_bounds && decide (index < s.ndim_arr.length) }

/-- The four nested loops of `main` (fndim.c, lines 45-57). -/
def fndim_fill (s : fndim_state) : fndim_state :=
  (List.range NT).foldl (fun s l =>
    (List.range NZ).foldl (fun s k =>
      (List.range NY).foldl (fun s j =>
        (List.range NX).foldl (fun s i => fndim_store l k j i s) s) s) s) s

/-- The arrays `nn` and `ldn` registered for the data (fndim.c, lines 74-75). -/
def nn : List Nat := [NX, NY, NZ, NT]

/-- The leading dimensions registered for the data. -/
def ldn : List Nat := [1, NX, NX * NY, NX * NY * NZ]

/-! ## Reading a list of calls -/

/-- Calls that hand a job to `handle_job_termination`. -/
def Call.is_handle_job_termination : Call → Bool
  | Call.handle_job_termination _ => true
  | _ => false

/-- Calls that hand a job to `push_local_task`. -/
def Call.is_push_local_task : Call → Bool
  | Call.push_local_task _ _ => true
  | _ => false

/-- Calls of a queue's `push_task` operation. -/
def Call.is_queue_push_task : Call → Bool
  | Call.queue_push_task _ _ _ => true
  | _ => false

/-- Calls of a policy's `init_sched` operation. -/
def Call.is_init_sched : Call → Bool
  | Call.init_sched _ => true
  | _ => false

/-- Calls of a policy's `get_local_queue` operation. -/
def Call.is_get_local_queue : Call → Bool
  | Call.get_local_queue _ => true
  | _ => false

/-- Calls of a queue's `pop_task` or `pop_every_task` operation. -/
def Call.is_queue_pop : Call → Bool
  | Call.queue_pop_task _ _ => true
  | Call.queue_pop_every_task _ _ _ => true
  | _ => false

/-- Calls that hand a job to a queue: `push_local_task` or a queue's `push_task`. -/
def Call.hands_over_job : Call → Bool
  | Call.push_local_task _ _ => true
  | Call.queue_push_task _ _ _ => true
  | _ => false

/-- Calls of `pthread_cond_wait`. -/
def Call.is_cond_wait : Call → Bool
  | Call.pthread_cond_wait _ _ => true
  | _ => false

/-- Calls of `pthread_cond_broadcast`. -/
def Call.is_cond_broadcast : Call → Bool
  | Call.pthread_cond_broadcast _ => true
  | _ => false

/-- Calls of `pthread_mutex_lock`. -/
def Call.is_mutex_lock : Call → Bool
  | Call.pthread_mutex_lock _ => true
  | _ => false

/-- Calls of `pthread_mutex_unlock`. -/
def Call.is_mutex_unlock : Call → Bool
  | Call.pthread_mutex_unlock _ => true
  | _ => false

/-- Calls of the drain hook `handle_all_pending_node_data_requests`. -/
def Call.is_drain : Call → Bool
  | Call.handle_all_pending_node_data_requests _ => true
  | _ => false

/-- Calls of a policy's `deinit_sched` operation. -/
def Call.is_deinit_sched : Call → Bool
  | Call.deinit_sched _ => true
  | _ => false

/-- The state in which `wait_on_sched_event` asks `machine_is_running`, when it starts in `s`
on the queue `q`: after the lock and the drain hook. -/
def state_at_running_check {σ : Type} (env : Env σ) (q : jobq_s) (s : σ) : σ :=
  env.handle_all_pending_node_data_requests
    (env.get_local_memory_node (env.pthread_mutex_lock q s)).1
    (env.get_local_memory_node (env.pthread_mutex_lock q s)).2

/-- The seven names known to `find_sched_policy_from_name`. -/
def sched_policy_names : List String :=
  ["ws", "prio", "no-prio", "dm", "dmda", "random", "eager"]

/-- The name looked up by `select_sched_policy` is `n`: either the configuration gives it, or
the configuration gives no name and `SCHED` holds it. -/
def resolves_name (getenv : Environ) (config : machine_config_s) (n : String) : Prop :=
  (∃ c, config.user_conf = some c ∧ c.sched_policy_name = some n)
  ∨ ((∀ c, config.user_conf = some c → c.sched_policy_name = none) ∧ getenv "SCHED" = some n)

/-! ## A concrete machine

One shared queue at address 100 whose operations are all present; the collaborators keep the
list of the addresses of the jobs that were queued, and every push is accepted except on
worker 1007, which has no capable device (status -19). -/

/-- The shared queue of the concrete machine. -/
def demo_queue : jobq_s :=
  { addr := 100, push_task := some 10, pop_task := some 11, pop_every_task := some 12 }

/-- The contents of every policy object of the concrete machine. -/
def demo_policy_object : sched_policy_s :=
  { init_sched := some 1, deinit_sched := some 2, get_local_queue := some 3
    policy_name := some "eager", policy_description := some "greedy policy"
    sched_activity_cond := ObjState.raw, sched_activity_mutex := ObjState.raw
    local_queue_key := ObjState.raw }

/-- The process-wide record before `init_sched_policy` has run. -/
def demo_blank_policy : sched_policy_s :=
  { init_sched := none, deinit_sched := none, get_local_queue := none
    policy_name := none, policy_description := none
    sched_activity_cond := ObjState.raw, sched_activity_mutex := ObjState.raw
    local_queue_key := ObjState.raw }

/-- The job of the concrete machine that lives at the given address. -/
def demo_job_at (addr : Nat) : job_s :=
  { addr := addr, task := { cl := some 7, execute_on_a_specific_worker := 0, workerid := 0 } }

/-- The collaborators of the concrete machine, with `SCHED` set to the given value. -/
def demo_env (sched : Option String) : Env (List Nat) :=
  { getenv := fun name => if name = "SCHED" then sched else none
    deref := fun _ => demo_policy_object
    init_sched := fun _ _ policy s => (policy, s)
    get_local_queue := fun _ _ s => (some demo_queue, s)
    handle_job_termination := fun _ s => s
    get_worker_struct := fun workerid s => (1000 + workerid, s)
    push_local_task := fun worker j s => if worker = 1007 then (-19, s) else (0, s ++ [j.addr])
    queue_push_task := fun _ _ j s => (0, s ++ [j.addr])
    queue_pop_task := fun _ _ s =>
      match s with
      | [] => (none, [])
      | a :: rest => (some (demo_job_at a), rest)
    queue_pop_every_task := fun _ _ _ s => (some (s.map demo_job_at), [])
    pthread_mutex_lock := fun _ s => s
    pthread_mutex_unlock := fun _ s => s
    pthread_cond_wait := fun _ s => s
    get_local_memory_node := fun s => (0, s)
    handle_all_pending_node_data_requests := fun _ s => s
    machine_is_running := fun s => (true, s)
    deinit_sched := fun _ _ policy _ => (policy, []) }

/-- The concrete machine once the runtime has been told to stop. -/
def demo_env_stopped : Env (List Nat) :=
  { demo_env none with machine_is_running := fun s => (false, s) }

/-- The concrete machine with effects that leave a mark in the state: the lock appends 1,
the drain hook 2, the wait 3 and the unlock 4. -/
def demo_env_marking : Env (List Nat) :=
  { demo_env none with
    pthread_mutex_lock := fun _ s => s ++ [1]
    handle_all_pending_node_data_requests := fun _ s => s ++ [2]
    pthread_cond_wait := fun _ s => s ++ [3]
    pthread_mutex_unlock := fun _ s => s ++ [4] }

/-- A blocking build and a busy polling build, both without the verbose output. -/
def demo_blocking_build : Build :=
  { VERBOSE := false, NON_BLOCKING_DRIVERS := false }

/-- A job with a codelet, pinned to worker 7, which has no capable device. -/
def demo_unfit_job : job_s :=
  { addr := 503, task := { cl := some 7, execute_on_a_specific_worker := 1, workerid := 7 } }

/-- A queue whose operations are all missing. -/
def demo_bare_queue : jobq_s :=
  { addr := 101, push_task := none, pop_task := none, pop_every_task := none }

/-- The concrete machine with the bare queue as local queue. -/
def demo_env_bare : Env (List Nat) :=
  { demo_env none with get_local_queue := fun _ _ s => (some demo_bare_queue, s) }

/-- A machine whose process state holds the policy record, with collaborators that leave the
record alone. -/
def demo_env_world : Env (sched_policy_s × List Nat) :=
  { getenv := fun _ => none
    deref := fun _ => demo_policy_object
    init_sched := fun _ _ policy w => (policy, w)
    get_local_queue := fun _ _ w => (some demo_queue, w)
    handle_job_termination := fun _ w => w
    get_worker_struct := fun workerid w => (1000 + workerid, w)
    push_local_task := fun _ j w => (0, (w.1, w.2 ++ [j.addr]))
    queue_push_task := fun _ _ j w => (0, (w.1, w.2 ++ [j.addr]))
    queue_pop_task := fun _ _ w => (none, w)
    queue_pop_every_task := fun _ _ _ w => (none, w)
    pthread_mutex_lock := fun _ w => w
    pthread_mutex_unlock := fun _ w => w
    pthread_cond_wait := fun _ w => w
    get_local_memory_node := fun w => (0, w)
    handle_all_pending_node_data_requests := fun _ w => w
    machine_is_running := fun w => (true, w)
    deinit_sched := fun _ _ policy w => (policy, w) }

/-- The same machine with a policy whose `get_local_queue` function, which is handed the
address of the record, rewrites the three operations of the record. -/
def demo_env_rewriting : Env (sched_policy_s × List Nat) :=
  { demo_env_world with
    get_local_queue := fun _ _ w =>
      (some demo_queue,
        ({ w.1 with init_sched := none, deinit_sched := none, get_local_queue := some 99 },
          w.2)) }

/-- The process-wide record after a policy without a `deinit_sched` operation was loaded. -/
def demo_live_policy : sched_policy_s :=
  { init_sched := some 1, deinit_sched := none, get_local_queue := some 3
    policy_name := none, policy_description := none
    sched_activity_cond := ObjState.live, sched_activity_mutex := ObjState.live
    local_queue_key := ObjState.live }

/-- The initial region of the concrete OpenMP runtime, as `starpu_omp_init` builds it. -/
def demo_initial_region : starpu_omp_region :=
  { addr := 1, parent_region := none, initial_nested_region := none, owner_device := some 0
    thread_list := [], implicit_task_list := [], nb_threads := 1, level := 0 }

/-- The initial thread of the concrete OpenMP runtime. -/
def demo_initial_thread : starpu_omp_thread :=
  { addr := 2, current_task := some 3, owner_region := some 1, primary_task := none
    initial_thread_stack := some 4 }

/-- The initial task of the concrete OpenMP runtime. -/
def demo_initial_task : starpu_omp_task :=
  { addr := 3, parent_task := none, owner_thread := some 2, owner_region := some 1
    is_implicit := 1, stack := none }

/-- The thread-specific values of a thread that runs the initial task as the initial
thread. -/
def demo_keys : omp_thread_specific :=
  { omp_thread_key := some demo_initial_thread, omp_task_key := some demo_initial_task }

/-- The thread-specific values of a thread on which neither key was ever set. -/
def demo_no_keys : omp_thread_specific :=
  { omp_thread_key := none, omp_task_key := none }

/-- A heap with room for a hundred more objects. -/
def demo_heap : omp_heap :=
  { next := 10, budget := 100 }

/-- A control job: no codelet, and pinned to worker 2 as well. -/
def demo_control_job : job_s :=
  { addr := 500, task := { cl := none, execute_on_a_specific_worker := 1, workerid := 2 } }

/-- A job with a codelet, pinned to worker 2. -/
def demo_pinned_job : job_s :=
  { addr := 501, task := { cl := some 7, execute_on_a_specific_worker := 1, workerid := 2 } }

/-- A job with a codelet that is not pinned. -/
def demo_free_job : job_s :=
  { addr := 502, task := { cl := some 7, execute_on_a_specific_worker := 0, workerid := 0 } }

/-- A configuration naming an unknown policy. -/
def demo_bad_config : machine_config_s :=
  { user_conf := some { sched_policy_name := some "fifo", sched_policy := none } }

/-! ## Basic facts -/

theorem strcmp_chars_eq_zero_iff (xs ys : List Char) : strcmp_chars xs ys = 0 ↔ xs = ys := by
  induction xs generalizing ys with
  | nil => cases ys <;> simp [strcmp_chars]
  | cons x xs ih =>
    cases ys with
    | nil => simp [strcmp_chars]
    | cons y ys =>
      by_cases hxy : x = y
      · simp [strcmp_chars, hxy, ih]
      · by_cases hlt : x.toNat < y.toNat <;> simp [strcmp_chars, hxy, hlt]

theorem strcmp_eq_zero_iff (a b : String) : strcmp a b = 0 ↔ a = b := by
  unfold strcmp
  rw [strcmp_chars_eq_zero_iff]
  constructor
  · intro h
    exact String.ext h
  · intro h
    rw [h]

theorem find_sched_policy_from_name_unknown (n : String) (hn : n ∉ sched_policy_names) :
    find_sched_policy_from_name (some n) = none := by
  simp only [sched_policy_names, List.mem_cons, List.mem_singleton, List.not_mem_nil,
    or_false, not_or] at hn
  simp [find_sched_policy_from_name, strcmp_eq_zero_iff, hn]

theorem find_sched_policy_from_name_known (n : String) (hn : n ∈ sched_policy_names) :
    (find_sched_policy_from_name (some n)).isSome = true := by
  simp only [sched_policy_names, List.mem_cons, List.mem_singleton, List.not_mem_nil,
    or_false] at hn
  rcases hn with h | h | h | h | h | h | h <;> subst h <;> decide

theorem select_sched_policy_of_resolves_name (getenv : Environ) (config : machine_config_s)
    (n : String) (hobj : ∀ c, config.user_conf = some c → c.sched_policy = none)
    (hres : resolves_name getenv config n) :
    select_sched_policy getenv config = find_sched_policy_from_name (some n) := by
  rcases hres with ⟨c, hconf, hname⟩ | ⟨hname, henv⟩
  · have h := hobj c hconf
    simp [select_sched_policy, hconf, h, hname]
  · cases hconf : config.user_conf with
    | none => simp [select_sched_policy, hconf, henv]
    | some c =>
      have h := hobj c hconf
      have h2 := hname c hconf
      simp [select_sched_policy, hconf, h, h2, henv]

theorem load_sched_policy_null {σ : Type} (build : Build) (env : Env σ)
    (policy : sched_policy_s) :
    load_sched_policy build env policy none
      = { calls := [], state := policy, out := Outcome.abort } := by
  simp [load_sched_policy, STARPU_ASSERT]

theorem init_sched_policy_of_select_null {σ : Type} (build : Build) (env : Env σ)
    (config : machine_config_s) (policy : sched_policy_s) (s : σ)
    (h : select_sched_policy env.getenv config = none) :
    init_sched_policy build env config policy s
      = { calls := display_sched_help_message env.getenv, state := (policy, s)
          out := Outcome.abort } := by
  simp [init_sched_policy, h, load_sched_policy_null]

theorem display_sched_help_message_only_prints (getenv : Environ) :
    ∀ c ∈ display_sched_help_message getenv, ∃ text, c = Call.fprintf text := by
  intro c hc
  unfold display_sched_help_message at hc
  split at hc
  · split at hc
    · rw [List.mem_map] at hc
      obtain ⟨text, _, rfl⟩ := hc
      exact ⟨text, rfl⟩
    · simp at hc
  · simp at hc

/-! ## The push path -/

/-- C1: for a job whose task has no codelet, pinned or not, `push_task` calls
`handle_job_termination` on that job exactly once, returns 0, and calls neither
`push_local_task` nor a queue `push_task` operation: the job is not placed in any queue. -/
theorem push_task_control_job {σ : Type} (env : Env σ) (policy : sched_policy_s) (j : job_s)
    (s : σ) (g : FnPtr) (hq : policy.get_local_queue = some g) (hcl : j.task.cl = none) :
    (push_task env policy j s).calls = [Call.get_local_queue g, Call.handle_job_termination j]
    ∧ (push_task env policy j s).calls.count (Call.handle_job_termination j) = 1
    ∧ ((push_task env policy j s).calls.filter Call.is_handle_job_termination).length = 1
    ∧ (push_task env policy j s).out = Outcome.value 0
    ∧ (∀ c ∈ (push_task env policy j s).calls,
        c.is_push_local_task = false ∧ c.is_queue_push_task = false)
    ∧ (push_task env policy j s).state
        = env.handle_job_termination j (env.get_local_queue g policy s).2 := by
  have h : push_task env policy j s =
      { calls := [Call.get_local_queue g, Call.handle_job_termination j]
        state := env.handle_job_termination j (env.get_local_queue g policy s).2
        out := Outcome.value 0 } := by
    simp [push_task, hq, hcl]
  rw [h]
  simp [Call.is_handle_job_termination, Call.is_push_local_task, Call.is_queue_push_task]

/-- A control job that is also pinned is terminated on the spot and never queued. -/
theorem push_task_control_job_witness :
    demo_policy_object.get_local_queue = some 3 ∧ demo_control_job.task.cl = none
    ∧ (push_task (demo_env none) demo_policy_object demo_control_job []).out = Outcome.value 0
    ∧ (push_task (demo_env none) demo_policy_object demo_control_job []).state = [] :=
  ⟨rfl, rfl,
    (push_task_control_job (demo_env none) demo_policy_object demo_control_job [] 3 rfl rfl).2.2.2.1,
    by rw [(push_task_control_job (demo_env none) demo_policy_object demo_control_job [] 3
      rfl rfl).2.2.2.2.2]; rfl⟩

/-- C2: for a job with a codelet that is marked `execute_on_a_specific_worker`, `push_task`
hands the job exactly once to `push_local_task` for the worker
`get_worker_struct(task->workerid)`, calls no queue `push_task` operation (whatever queue the
policy returned, also none or one without that operation), does not call
`handle_job_termination`, and returns the status of `push_local_task` unchanged. -/
theorem push_task_pinned_job {σ : Type} (env : Env σ) (policy : sched_policy_s) (j : job_s)
    (s : σ) (g : FnPtr) (hq : policy.get_local_queue = some g) (hcl : j.task.cl ≠ none)
    (hpin : j.task.execute_on_a_specific_worker ≠ 0) :
    (push_task env policy j s).calls
        = [Call.get_local_queue g, Call.get_worker_struct j.task.workerid,
            Call.push_local_task
              (env.get_worker_struct j.task.workerid (env.get_local_queue g policy s).2).1 j]
    ∧ ((push_task env policy j s).calls.filter Call.is_push_local_task).length = 1
    ∧ (∀ c ∈ (push_task env policy j s).calls,
        c.is_queue_push_task = false ∧ c.is_handle_job_termination = false)
    ∧ (push_task env policy j s).out
        = Outcome.value (env.push_local_task
            (env.get_worker_struct j.task.workerid (env.get_local_queue g policy s).2).1 j
            (env.get_worker_struct j.task.workerid (env.get_local_queue g policy s).2).2).1
    ∧ (push_task env policy j s).state
        = (env.push_local_task
            (env.get_worker_struct j.task.workerid (env.get_local_queue g policy s).2).1 j
            (env.get_worker_struct j.task.workerid (env.get_local_queue g policy s).2).2).2 := by
  have h : push_task env policy j s =
      { calls := [Call.get_local_queue g, Call.get_worker_struct j.task.workerid,
          Call.push_local_task
            (env.get_worker_struct j.task.workerid (env.get_local_queue g policy s).2).1 j]
        state := (env.push_local_task
            (env.get_worker_struct j.task.workerid (env.get_local_queue g policy s).2).1 j
            (env.get_worker_struct j.task.workerid (env.get_local_queue g policy s).2).2).2
        out := Outcome.value (env.push_local_task
            (env.get_worker_struct j.task.workerid (env.get_local_queue g policy s).2).1 j
            (env.get_worker_struct j.task.workerid (env.get_local_queue g policy s).2).2).1 } := by
    simp [push_task, hq, hcl, hpin]
  rw [h]
  simp [Call.is_handle_job_termination, Call.is_push_local_task, Call.is_queue_push_task]

/-- A job pinned to worker 2 goes to `push_local_task` for the worker at address 1002 and
ends up queued there, with status 0. -/
theorem push_task_pinned_job_witness :
    demo_policy_object.get_local_queue = some 3 ∧ demo_pinned_job.task.cl ≠ none
    ∧ demo_pinned_job.task.execute_on_a_specific_worker ≠ 0
    ∧ (push_task (demo_env none) demo_policy_object demo_pinned_job []).calls
        = [Call.get_local_queue 3, Call.get_worker_struct 2,
            Call.push_local_task 1002 demo_pinned_job]
    ∧ (push_task (demo_env none) demo_policy_object demo_pinned_job []).out = Outcome.value 0 :=
  ⟨rfl, by decide, by decide,
    (push_task_pinned_job (demo_env none) demo_policy_object demo_pinned_job [] 3 rfl
      (by decide) (by decide)).1,
    (push_task_pinned_job (demo_env none) demo_policy_object demo_pinned_job [] 3 rfl
      (by decide) (by decide)).2.2.2.1⟩

/-- C3: for a job with a codelet that is not pinned, `push_task` calls the `push_task`
operation of the queue returned by the policy `get_local_queue` exactly once with that job and
returns the status of that operation unchanged, whatever it is. -/
theorem push_task_free_job {σ : Type} (env : Env σ) (policy : sched_policy_s) (j : job_s)
    (s : σ) (g f : FnPtr) (q : jobq_s) (hq : policy.get_local_queue = some g)
    (hcl : j.task.cl ≠ none) (hpin : j.task.execute_on_a_specific_worker = 0)
    (hqueue : (env.get_local_queue g policy s).1 = some q) (hop : q.push_task = some f) :
    (push_task env policy j s).calls = [Call.get_local_queue g, Call.queue_push_task f q j]
    ∧ ((push_task env policy j s).calls.filter Call.is_queue_push_task).length = 1
    ∧ (∀ c ∈ (push_task env policy j s).calls,
        c.is_push_local_task = false ∧ c.is_handle_job_termination = false)
    ∧ (push_task env policy j s).out
        = Outcome.value (env.queue_push_task f q j (env.get_local_queue g policy s).2).1
    ∧ (push_task env policy j s).state
        = (env.queue_push_task f q j (env.get_local_queue g policy s).2).2 := by
  have h : push_task env policy j s =
      { calls := [Call.get_local_queue g, Call.queue_push_task f q j]
        state := (env.queue_push_task f q j (env.get_local_queue g policy s).2).2
        out := Outcome.value (env.queue_push_task f q j (env.get_local_queue g policy s).2).1 } := by
    simp [push_task, hq, hcl, hpin, hqueue, hop, STARPU_ASSERT]
  rw [h]
  simp [Call.is_handle_job_termination, Call.is_push_local_task, Call.is_queue_push_task]

/-- A job that is not pinned goes through the `push_task` operation of the shared queue. -/
theorem push_task_free_job_witness :
    demo_policy_object.get_local_queue = some 3 ∧ demo_free_job.task.cl ≠ none
    ∧ demo_free_job.task.execute_on_a_specific_worker = 0
    ∧ ((demo_env none).get_local_queue 3 demo_policy_object []).1 = some demo_queue
    ∧ demo_queue.push_task = some 10
    ∧ (push_task (demo_env none) demo_policy_object demo_free_job []).calls
        = [Call.get_local_queue 3, Call.queue_push_task 10 demo_queue demo_free_job] :=
  ⟨rfl, by decide, rfl, rfl, rfl,
    (push_task_free_job (demo_env none) demo_policy_object demo_free_job [] 3 10 demo_queue rfl
      (by decide) rfl rfl rfl).1⟩

/-! ## Policy selection -/

/-- C4: when `user_conf` is non-null and carries a non-null `sched_policy` object,
`select_sched_policy` returns exactly that object, whatever `sched_policy_name` and the
`SCHED` environment variable contain. -/
theorem select_sched_policy_explicit_object (getenv : Environ) (config : machine_config_s)
    (c : starpu_conf) (p : PolicyPtr) (hconf : config.user_conf = some c)
    (hobj : c.sched_policy = some p) :
    select_sched_policy getenv config = some p := by
  simp [select_sched_policy, hconf, hobj]

/-- An application object wins over an unknown configured name and an unknown `SCHED`. -/
theorem select_sched_policy_explicit_object_witness :
    (⟨some ⟨some "fifo", some (PolicyPtr.user 42)⟩⟩ : machine_config_s).user_conf
        = some ⟨some "fifo", some (PolicyPtr.user 42)⟩
    ∧ (⟨some "fifo", some (PolicyPtr.user 42)⟩ : starpu_conf).sched_policy
        = some (PolicyPtr.user 42)
    ∧ select_sched_policy (demo_env (some "nonsense")).getenv
        ⟨some ⟨some "fifo", some (PolicyPtr.user 42)⟩⟩ = some (PolicyPtr.user 42) :=
  ⟨rfl, rfl,
    select_sched_policy_explicit_object (demo_env (some "nonsense")).getenv
      ⟨some ⟨some "fifo", some (PolicyPtr.user 42)⟩⟩ ⟨some "fifo", some (PolicyPtr.user 42)⟩
      (PolicyPtr.user 42) rfl rfl⟩

/-- C5: without an explicit policy object, the name `select_sched_policy` looks up is
`user_conf->sched_policy_name` when it is set, whatever `SCHED` holds, and the value of `SCHED`
only when no configuration name is given (`user_conf` null or its `sched_policy_name` null);
the result is `find_sched_policy_from_name` of that name. -/
theorem select_sched_policy_name_order (config : machine_config_s)
    (hobj : ∀ c, config.user_conf = some c → c.sched_policy = none) :
    (∀ c n, config.user_conf = some c → c.sched_policy_name = some n →
      ∀ getenv : Environ, select_sched_policy getenv config = find_sched_policy_from_name (some n))
    ∧ ((∀ c, config.user_conf = some c → c.sched_policy_name = none) →
      ∀ (getenv : Environ) (n : String), getenv "SCHED" = some n →
        select_sched_policy getenv config = find_sched_policy_from_name (some n)) := by
  constructor
  · intro c n hconf hname getenv
    have h := hobj c hconf
    simp [select_sched_policy, hconf, h, hname]
  · intro hname getenv n henv
    cases hconf : config.user_conf with
    | none => simp [select_sched_policy, hconf, henv]
    | some c =>
      have h := hobj c hconf
      have h2 := hname c hconf
      simp [select_sched_policy, hconf, h, h2, henv]

/-- The configured name "dm" is looked up although `SCHED` says "ws". -/
theorem select_sched_policy_name_order_witness :
    (∀ c, (⟨some ⟨some "dm", none⟩⟩ : machine_config_s).user_conf = some c →
      c.sched_policy = none)
    ∧ select_sched_policy (demo_env (some "ws")).getenv ⟨some ⟨some "dm", none⟩⟩
        = some PolicyPtr.sched_dm_policy :=
  ⟨by intro c h; cases h; rfl,
    ((select_sched_policy_name_order ⟨some ⟨some "dm", none⟩⟩
      (by intro c h; cases h; rfl)).1 ⟨some "dm", none⟩ "dm" rfl rfl
      (demo_env (some "ws")).getenv).trans (by decide)⟩

/-- C6: with no explicit policy object, no policy name and `SCHED` unset,
`select_sched_policy` returns the built-in eager policy `sched_eager_policy`. -/
theorem select_sched_policy_default (getenv : Environ) (config : machine_config_s)
    (hobj : ∀ c, config.user_conf = some c → c.sched_policy = none)
    (hname : ∀ c, config.user_conf = some c → c.sched_policy_name = none)
    (henv : getenv "SCHED" = none) :
    select_sched_policy getenv config = some PolicyPtr.sched_eager_policy := by
  cases hconf : config.user_conf with
  | none => simp [select_sched_policy, hconf, henv]
  | some c =>
    have h := hobj c hconf
    have h2 := hname c hconf
    simp [select_sched_policy, hconf, h, h2, henv]

/-- An empty user configuration and an empty environment give the eager policy. -/
theorem select_sched_policy_default_witness :
    (∀ c, (⟨some ⟨none, none⟩⟩ : machine_config_s).user_conf = some c → c.sched_policy = none)
    ∧ (∀ c, (⟨some ⟨none, none⟩⟩ : machine_config_s).user_conf = some c →
        c.sched_policy_name = none)
    ∧ (demo_env none).getenv "SCHED" = none
    ∧ select_sched_policy (demo_env none).getenv ⟨some ⟨none, none⟩⟩
        = some PolicyPtr.sched_eager_policy :=
  ⟨by intro c h; cases h; rfl, by intro c h; cases h; rfl, by decide,
    select_sched_policy_default (demo_env none).getenv ⟨some ⟨none, none⟩⟩
      (by intro c h; cases h; rfl) (by intro c h; cases h; rfl) (by decide)⟩

/-- C7: `find_sched_policy_from_name` returns a policy exactly for the seven names "ws",
"prio", "no-prio", "dm", "dmda", "random" and "eager" (exact, case-sensitive match); for every
other string, the empty string included, and for a null name it returns no policy; and
`select_sched_policy`, when the name it looks up (from the configuration or from `SCHED`) is
such a string, returns no policy as well instead of the eager policy. -/
theorem find_sched_policy_from_name_exact_names :
    (∀ name : Option String, (find_sched_policy_from_name name).isSome = true
        ↔ ∃ n ∈ sched_policy_names, name = some n)
    ∧ find_sched_policy_from_name none = none
    ∧ find_sched_policy_from_name (some "") = none
    ∧ find_sched_policy_from_name (some "WS") = none
    ∧ find_sched_policy_from_name (some "Eager") = none
    ∧ (∀ n : String, n ∉ sched_policy_names → find_sched_policy_from_name (some n) = none)
    ∧ (∀ (getenv : Environ) (config : machine_config_s) (n : String),
        n ∉ sched_policy_names →
        (∀ c, config.user_conf = some c → c.sched_policy = none) →
        resolves_name getenv config n →
        select_sched_policy getenv config = none
        ∧ select_sched_policy getenv config ≠ some PolicyPtr.sched_eager_policy) := by
  refine ⟨?_, rfl, by decide, by decide, by decide, find_sched_policy_from_name_unknown, ?_⟩
  · intro name
    constructor
    · intro h
      cases name with
      | none => simp [find_sched_policy_from_name] at h
      | some n =>
        by_cases hn : n ∈ sched_policy_names
        · exact ⟨n, hn, rfl⟩
        · rw [find_sched_policy_from_name_unknown n hn] at h
          simp at h
    · rintro ⟨n, hn, rfl⟩
      exact find_sched_policy_from_name_known n hn
  · intro getenv config n hn hobj hres
    have h : select_sched_policy getenv config = none := by
      rw [select_sched_policy_of_resolves_name getenv config n hobj hres]
      exact find_sched_policy_from_name_unknown n hn
    exact ⟨h, by rw [h]; simp⟩

/-- The unknown name "fifo" gives no policy, from the configuration and from `SCHED`. -/
theorem find_sched_policy_from_name_exact_names_witness :
    select_sched_policy (demo_env (some "ws")).getenv demo_bad_config = none
    ∧ select_sched_policy (demo_env (some "fifo")).getenv ⟨none⟩ = none :=
  ⟨(find_sched_policy_from_name_exact_names.2.2.2.2.2.2 (demo_env (some "ws")).getenv
      demo_bad_config "fifo" (by decide) (by intro c h; cases h; rfl)
      (Or.inl ⟨_, rfl, rfl⟩)).1,
    (find_sched_policy_from_name_exact_names.2.2.2.2.2.2 (demo_env (some "fifo")).getenv
      ⟨none⟩ "fifo" (by decide) (by intro c h; cases h)
      (Or.inr ⟨(fun c h => by cases h), by decide⟩)).1⟩

/-- C8: when the policy name that is looked up is unknown, `init_sched_policy` aborts on the
assertion of `load_sched_policy`: the process-wide policy record and the state of the
collaborators are as before, no `init_sched` operation has been called (the only calls are the
prints of the help message, if any), and no other policy has been loaded. -/
theorem init_sched_policy_unknown_name_aborts {σ : Type} (build : Build) (env : Env σ)
    (config : machine_config_s) (policy : sched_policy_s) (s : σ) (n : String)
    (hn : n ∉ sched_policy_names)
    (hobj : ∀ c, config.user_conf = some c → c.sched_policy = none)
    (hres : resolves_name env.getenv config n) :
    (init_sched_policy build env config policy s).out = Outcome.abort
    ∧ (init_sched_policy build env config policy s).state = (policy, s)
    ∧ (init_sched_policy build env config policy s).calls
        = display_sched_help_message env.getenv
    ∧ (∀ c ∈ (init_sched_policy build env config policy s).calls,
        c.is_init_sched = false ∧ ∃ text, c = Call.fprintf text)
    ∧ load_sched_policy build env policy (select_sched_policy env.getenv config)
        = { calls := [], state := policy, out := Outcome.abort } := by
  have hsel : select_sched_policy env.getenv config = none := by
    rw [select_sched_policy_of_resolves_name env.getenv config n hobj hres]
    exact find_sched_policy_from_name_unknown n hn
  rw [init_sched_policy_of_select_null build env config policy s hsel, hsel]
  refine ⟨rfl, rfl, rfl, ?_, load_sched_policy_null build env policy⟩
  intro c hc
  obtain ⟨text, rfl⟩ := display_sched_help_message_only_prints env.getenv c hc
  exact ⟨rfl, text, rfl⟩

/-- With the configured name "fifo" the start-up aborts and leaves the blank record alone. -/
theorem init_sched_policy_unknown_name_aborts_witness :
    "fifo" ∉ sched_policy_names
    ∧ (∀ c, demo_bad_config.user_conf = some c → c.sched_policy = none)
    ∧ resolves_name (demo_env none).getenv demo_bad_config "fifo"
    ∧ (init_sched_policy ⟨true, false⟩ (demo_env none) demo_bad_config demo_blank_policy []).out
        = Outcome.abort
    ∧ (init_sched_policy ⟨true, false⟩ (demo_env none) demo_bad_config demo_blank_policy
        []).state = (demo_blank_policy, []) :=
  ⟨by decide, by intro c h; cases h; rfl, Or.inl ⟨_, rfl, rfl⟩,
    (init_sched_policy_unknown_name_aborts ⟨true, false⟩ (demo_env none) demo_bad_config
      demo_blank_policy [] "fifo" (by decide) (by intro c h; cases h; rfl)
      (Or.inl ⟨_, rfl, rfl⟩)).1,
    (init_sched_policy_unknown_name_aborts ⟨true, false⟩ (demo_env none) demo_bad_config
      demo_blank_policy [] "fifo" (by decide) (by intro c h; cases h; rfl)
      (Or.inl ⟨_, rfl, rfl⟩)).2.1⟩

/-- C9: each documented name resolves to the policy the help text announces for it ("ws" work
stealing, "prio" prio eager, "no-prio" eager without prio, "dm" performance model, "dmda"
data-aware performance model, "random" random) and "eager" to the eager policy; the seven
names resolve to seven pairwise distinct policy objects, and in particular "no-prio" and
"eager" do not resolve to the same object. -/
theorem find_sched_policy_from_name_table :
    find_sched_policy_from_name (some "ws") = some PolicyPtr.sched_ws_policy
    ∧ find_sched_policy_from_name (some "prio") = some PolicyPtr.sched_prio_policy
    ∧ find_sched_policy_from_name (some "no-prio") = some PolicyPtr.sched_no_prio_policy
    ∧ find_sched_policy_from_name (some "dm") = some PolicyPtr.sched_dm_policy
    ∧ find_sched_policy_from_name (some "dmda") = some PolicyPtr.sched_dmda_policy
    ∧ find_sched_policy_from_name (some "random") = some PolicyPtr.sched_random_policy
    ∧ find_sched_policy_from_name (some "eager") = some PolicyPtr.sched_eager_policy
    ∧ (sched_policy_names.map (fun n => find_sched_policy_from_name (some n))).Nodup
    ∧ (sched_policy_names.map (fun n => find_sched_policy_from_name (some n))).length = 7
    ∧ find_sched_policy_from_name (some "no-prio") ≠ find_sched_policy_from_name (some "eager")
    ∧ sched_help_lines
        = ["SCHED can be either of\n", "ws\twork stealing\n", "prio\tprio eager\n",
            "no-prio\teager (without prio)\n", "dm\tperformance model\n",
            "dmda\tdata-aware performance model\n", "random\trandom\n",
            "else the eager scheduler will be used\n"] := by
  refine ⟨by decide, by decide, by decide, by decide, by decide, by decide, by decide,
    by decide, by decide, by decide, rfl⟩

/-- C10: with `SCHED` set to "help" and nothing configured, the help message, which ends with
"else the eager scheduler will be used", is printed, yet `select_sched_policy` returns no
policy instead of the eager policy and `init_sched_policy` aborts without loading a policy;
the same happens for the misspelt name "eagre". -/
theorem init_sched_policy_help_aborts :
    select_sched_policy (demo_env (some "help")).getenv ⟨none⟩ = none
    ∧ select_sched_policy (demo_env (some "help")).getenv ⟨none⟩
        ≠ some PolicyPtr.sched_eager_policy
    ∧ (init_sched_policy ⟨false, false⟩ (demo_env (some "help")) ⟨none⟩ demo_blank_policy
        []).out = Outcome.abort
    ∧ (init_sched_policy ⟨false, false⟩ (demo_env (some "help")) ⟨none⟩ demo_blank_policy
        []).calls = sched_help_lines.map Call.fprintf
    ∧ (init_sched_policy ⟨false, false⟩ (demo_env (some "help")) ⟨none⟩ demo_blank_policy
        []).state = (demo_blank_policy, [])
    ∧ select_sched_policy (demo_env (some "eagre")).getenv ⟨none⟩ = none
    ∧ (init_sched_policy ⟨false, false⟩ (demo_env (some "eagre")) ⟨none⟩ demo_blank_policy
        []).out = Outcome.abort := by
  refine ⟨by decide, by decide, by decide, by decide, by decide, by decide, by decide⟩

/-! ## The pop path -/

theorem pop_task_eq {σ : Type} (env : Env σ) (policy : sched_policy_s) (s : σ) (g : FnPtr)
    (hq : policy.get_local_queue = some g) :
    pop_task env policy s =
      { calls := Call.get_local_queue g
          :: (pop_task_from_queue env (env.get_local_queue g policy s).1
                (env.get_local_queue g policy s).2).calls
        state := (pop_task_from_queue env (env.get_local_queue g policy s).1
                (env.get_local_queue g policy s).2).state
        out := (pop_task_from_queue env (env.get_local_queue g policy s).1
                (env.get_local_queue g policy s).2).out } := by
  simp [pop_task, hq]

theorem pop_every_task_eq {σ : Type} (env : Env σ) (policy : sched_policy_s)
    (where_mask : Nat) (s : σ) (g : FnPtr) (hq : policy.get_local_queue = some g) :
    pop_every_task env policy where_mask s =
      { calls := Call.get_local_queue g
          :: (pop_every_task_from_queue env (env.get_local_queue g policy s).1 where_mask
                (env.get_local_queue g policy s).2).calls
        state := (pop_every_task_from_queue env (env.get_local_queue g policy s).1 where_mask
                (env.get_local_queue g policy s).2).state
        out := (pop_every_task_from_queue env (env.get_local_queue g policy s).1 where_mask
                (env.get_local_queue g policy s).2).out } := by
  simp [pop_every_task, hq]

theorem pop_task_from_queue_present {σ : Type} (env : Env σ) (q : jobq_s) (f : FnPtr) (s : σ)
    (hop : q.pop_task = some f) :
    pop_task_from_queue env (some q) s =
      { calls := [Call.queue_pop_task f q], state := (env.queue_pop_task f q s).2
        out := Outcome.value (env.queue_pop_task f q s).1 } := by
  simp [pop_task_from_queue, hop, STARPU_ASSERT]

theorem pop_every_task_from_queue_present {σ : Type} (env : Env σ) (q : jobq_s) (f : FnPtr)
    (where_mask : Nat) (s : σ) (hop : q.pop_every_task = some f) :
    pop_every_task_from_queue env (some q) where_mask s =
      { calls := [Call.queue_pop_every_task f q where_mask]
        state := (env.queue_pop_every_task f q where_mask s).2
        out := Outcome.value (env.queue_pop_every_task f q where_mask s).1 } := by
  simp [pop_every_task_from_queue, hop, STARPU_ASSERT]

theorem pop_task_from_queue_missing {σ : Type} (env : Env σ) (q : jobq_s) (s : σ)
    (hop : q.pop_task = none) :
    pop_task_from_queue env (some q) s = { calls := [], state := s, out := Outcome.abort } := by
  simp [pop_task_from_queue, hop, STARPU_ASSERT]

theorem pop_every_task_from_queue_missing {σ : Type} (env : Env σ) (q : jobq_s)
    (where_mask : Nat) (s : σ) (hop : q.pop_every_task = none) :
    pop_every_task_from_queue env (some q) where_mask s
      = { calls := [], state := s, out := Outcome.abort } := by
  simp [pop_every_task_from_queue, hop, STARPU_ASSERT]

/-- C11: `pop_task()` returns exactly what `pop_task_from_queue` returns on the queue given by
the policy `get_local_queue`, and `pop_every_task(where)` exactly what
`pop_every_task_from_queue` returns on that queue with `where` passed unchanged; each calls
`get_local_queue` once and, the operation being there, the queue `pop_task` (resp.
`pop_every_task`) operation once; the result of the operation, an empty one included, is
returned as is, with no wait and no second attempt. -/
theorem pop_task_refines_pop_task_from_queue {σ : Type} (env : Env σ)
    (policy : sched_policy_s) (where_mask : Nat) (s : σ) (g : FnPtr)
    (hq : policy.get_local_queue = some g) :
    ((pop_task env policy s).out
        = (pop_task_from_queue env (env.get_local_queue g policy s).1
            (env.get_local_queue g policy s).2).out
      ∧ (pop_task env policy s).state
        = (pop_task_from_queue env (env.get_local_queue g policy s).1
            (env.get_local_queue g policy s).2).state
      ∧ (pop_task env policy s).calls
        = Call.get_local_queue g
          :: (pop_task_from_queue env (env.get_local_queue g policy s).1
            (env.get_local_queue g policy s).2).calls)
    ∧ ((pop_every_task env policy where_mask s).out
        = (pop_every_task_from_queue env (env.get_local_queue g policy s).1 where_mask
            (env.get_local_queue g policy s).2).out
      ∧ (pop_every_task env policy where_mask s).state
        = (pop_every_task_from_queue env (env.get_local_queue g policy s).1 where_mask
            (env.get_local_queue g policy s).2).state
      ∧ (pop_every_task env policy where_mask s).calls
        = Call.get_local_queue g
          :: (pop_every_task_from_queue env (env.get_local_queue g policy s).1 where_mask
            (env.get_local_queue g policy s).2).calls)
    ∧ (∀ q f, (env.get_local_queue g policy s).1 = some q → q.pop_task = some f →
        (pop_task env policy s).calls = [Call.get_local_queue g, Call.queue_pop_task f q]
        ∧ ((pop_task env policy s).calls.filter Call.is_get_local_queue).length = 1
        ∧ ((pop_task env policy s).calls.filter Call.is_queue_pop).length = 1
        ∧ (∀ c ∈ (pop_task env policy s).calls, c.is_cond_wait = false)
        ∧ (pop_task env policy s).out
          = Outcome.value (env.queue_pop_task f q (env.get_local_queue g policy s).2).1)
    ∧ (∀ q f, (env.get_local_queue g policy s).1 = some q → q.pop_every_task = some f →
        (pop_every_task env policy where_mask s).calls
          = [Call.get_local_queue g, Call.queue_pop_every_task f q where_mask]
        ∧ ((pop_every_task env policy where_mask s).calls.filter
            Call.is_get_local_queue).length = 1
        ∧ ((pop_every_task env policy where_mask s).calls.filter Call.is_queue_pop).length = 1
        ∧ (∀ c ∈ (pop_every_task env policy where_mask s).calls, c.is_cond_wait = false)
        ∧ (pop_every_task env policy where_mask s).out
          = Outcome.value
              (env.queue_pop_every_task f q where_mask (env.get_local_queue g policy s).2).1) := by
  refine ⟨?_, ?_, ?_, ?_⟩
  · rw [pop_task_eq env policy s g hq]
    exact ⟨rfl, rfl, rfl⟩
  · rw [pop_every_task_eq env policy where_mask s g hq]
    exact ⟨rfl, rfl, rfl⟩
  · intro q f hqueue hop
    rw [pop_task_eq env policy s g hq, hqueue, pop_task_from_queue_present env q f _ hop]
    simp [Call.is_get_local_queue, Call.is_queue_pop, Call.is_cond_wait]
  · intro q f hqueue hop
    rw [pop_every_task_eq env policy where_mask s g hq, hqueue,
      pop_every_task_from_queue_present env q f where_mask _ hop]
    simp [Call.is_get_local_queue, Call.is_queue_pop, Call.is_cond_wait]

/-- On the concrete machine a pop from the empty shared queue returns no job at once, and a
pop with job 502 queued returns that job. -/
theorem pop_task_refines_pop_task_from_queue_witness :
    demo_policy_object.get_local_queue = some 3
    ∧ (pop_task (demo_env none) demo_policy_object []).out = Outcome.value none
    ∧ (pop_task (demo_env none) demo_policy_object []).calls
        = [Call.get_local_queue 3, Call.queue_pop_task 11 demo_queue]
    ∧ (pop_task (demo_env none) demo_policy_object [502]).out
        = Outcome.value (some demo_free_job) :=
  ⟨rfl,
    ((pop_task_refines_pop_task_from_queue (demo_env none) demo_policy_object 0 [] 3
      rfl).2.2.1 demo_queue 11 rfl rfl).2.2.2.2,
    ((pop_task_refines_pop_task_from_queue (demo_env none) demo_policy_object 0 [] 3
      rfl).2.2.1 demo_queue 11 rfl rfl).1,
    ((pop_task_refines_pop_task_from_queue (demo_env none) demo_policy_object 0 [502] 3
      rfl).2.2.1 demo_queue 11 rfl rfl).2.2.2.2⟩

/-! ## Waiting for work -/

theorem wait_on_sched_event_eq {σ : Type} (build : Build) (env : Env σ)
    (policy : sched_policy_s) (s : σ) (g : FnPtr) (q : jobq_s)
    (hq : policy.get_local_queue = some g)
    (hqueue : (env.get_local_queue g policy s).1 = some q) :
    wait_on_sched_event build env policy s =
      (if (env.machine_is_running
            (state_at_running_check env q (env.get_local_queue g policy s).2)).1 = true
          ∧ build.NON_BLOCKING_DRIVERS = false then
        { calls := [Call.get_local_queue g, Call.pthread_mutex_lock q,
            Call.get_local_memory_node,
            Call.handle_all_pending_node_data_requests
              (env.get_local_memory_node
                (env.pthread_mutex_lock q (env.get_local_queue g policy s).2)).1,
            Call.machine_is_running, Call.pthread_cond_wait q q, Call.pthread_mutex_unlock q]
          state := env.pthread_mutex_unlock q (env.pthread_cond_wait q
            (env.machine_is_running
              (state_at_running_check env q (env.get_local_queue g policy s).2)).2)
          out := Outcome.value () }
      else
        { calls := [Call.get_local_queue g, Call.pthread_mutex_lock q,
            Call.get_local_memory_node,
            Call.handle_all_pending_node_data_requests
              (env.get_local_memory_node
                (env.pthread_mutex_lock q (env.get_local_queue g policy s).2)).1,
            Call.machine_is_running, Call.pthread_mutex_unlock q]
          state := env.pthread_mutex_unlock q
            (env.machine_is_running
              (state_at_running_check env q (env.get_local_queue g policy s).2)).2
          out := Outcome.value () }) := by
  simp [wait_on_sched_event, hq, hqueue, state_at_running_check]

/-- C12: `wait_on_sched_event` waits on the condition of the local queue if and only if
`machine_is_running()` is true at the time of the check and the build uses blocking drivers
(`NON_BLOCKING_DRIVERS` undefined); when the runtime has been told to stop, or in the busy
polling build, it returns without waiting, and when it waits it waits exactly once: the
state it ends in is the one after the check with `pthread_cond_wait` applied once and then
the unlock in the first case, and with the unlock alone in the second. -/
theorem wait_on_sched_event_waits_iff {σ : Type} (build : Build) (env : Env σ)
    (policy : sched_policy_s) (s : σ) (g : FnPtr) (q : jobq_s)
    (hq : policy.get_local_queue = some g)
    (hqueue : (env.get_local_queue g policy s).1 = some q) :
    (Call.pthread_cond_wait q q ∈ (wait_on_sched_event build env policy s).calls
      ↔ (env.machine_is_running
            (state_at_running_check env q (env.get_local_queue g policy s).2)).1 = true
          ∧ build.NON_BLOCKING_DRIVERS = false)
    ∧ ((∃ c ∈ (wait_on_sched_event build env policy s).calls, c.is_cond_wait = true)
      ↔ (env.machine_is_running
            (state_at_running_check env q (env.get_local_queue g policy s).2)).1 = true
          ∧ build.NON_BLOCKING_DRIVERS = false)
    ∧ ((wait_on_sched_event build env policy s).calls.filter Call.is_cond_wait).length
      = (if (env.machine_is_running
            (state_at_running_check env q (env.get_local_queue g policy s).2)).1 = true
          ∧ build.NON_BLOCKING_DRIVERS = false then 1 else 0)
    ∧ (wait_on_sched_event build env policy s).out = Outcome.value ()
    ∧ (wait_on_sched_event build env policy s).state
      = (if (env.machine_is_running
            (state_at_running_check env q (env.get_local_queue g policy s).2)).1 = true
          ∧ build.NON_BLOCKING_DRIVERS = false then
          env.pthread_mutex_unlock q (env.pthread_cond_wait q
            (env.machine_is_running
              (state_at_running_check env q (env.get_local_queue g policy s).2)).2)
        else
          env.pthread_mutex_unlock q
            (env.machine_is_running
              (state_at_running_check env q (env.get_local_queue g policy s).2)).2) := by
  rw [wait_on_sched_event_eq build env policy s g q hq hqueue]
  by_cases h : (env.machine_is_running
      (state_at_running_check env q (env.get_local_queue g policy s).2)).1 = true
      ∧ build.NON_BLOCKING_DRIVERS = false
  · rw [if_pos h, if_pos h, if_pos h]
    simp [Call.is_cond_wait, h]
  · rw [if_neg h, if_neg h, if_neg h]
    simp only [h, iff_false]
    simp [Call.is_cond_wait]

/-- On the concrete machine a blocking build waits once while the machine runs, and neither a
stopped machine nor a busy polling build waits; with effects that leave a mark, the wait
leaves its mark 3 in the blocking build only. -/
theorem wait_on_sched_event_waits_iff_witness :
    demo_policy_object.get_local_queue = some 3
    ∧ ((demo_env none).get_local_queue 3 demo_policy_object []).1 = some demo_queue
    ∧ ((wait_on_sched_event demo_blocking_build (demo_env none) demo_policy_object
        []).calls.filter Call.is_cond_wait).length = 1
    ∧ ((wait_on_sched_event demo_blocking_build demo_env_stopped demo_policy_object
        []).calls.filter Call.is_cond_wait).length = 0
    ∧ ((wait_on_sched_event ⟨false, true⟩ (demo_env none) demo_policy_object
        []).calls.filter Call.is_cond_wait).length = 0
    ∧ (wait_on_sched_event demo_blocking_build demo_env_marking demo_policy_object []).state
      = [1, 2, 3, 4]
    ∧ (wait_on_sched_event ⟨false, true⟩ demo_env_marking demo_policy_object []).state
      = [1, 2, 4] :=
  ⟨rfl, rfl,
    (wait_on_sched_event_waits_iff demo_blocking_build (demo_env none) demo_policy_object []
      3 demo_queue rfl rfl).2.2.1.trans (by decide),
    (wait_on_sched_event_waits_iff demo_blocking_build demo_env_stopped demo_policy_object []
      3 demo_queue rfl rfl).2.2.1.trans (by decide),
    (wait_on_sched_event_waits_iff ⟨false, true⟩ (demo_env none) demo_policy_object []
      3 demo_queue rfl rfl).2.2.1.trans (by decide),
    (wait_on_sched_event_waits_iff demo_blocking_build demo_env_marking demo_policy_object []
      3 demo_queue rfl rfl).2.2.2.2.trans (by decide),
    (wait_on_sched_event_waits_iff ⟨false, true⟩ demo_env_marking demo_policy_object []
      3 demo_queue rfl rfl).2.2.2.2.trans (by decide)⟩

/-- C13: in every call of `wait_on_sched_event`, blocking or not, the effects come in this
order: lock the activity mutex of the local queue, call
`handle_all_pending_node_data_requests` exactly once for the local memory node, then
(optionally) wait on the condition of that queue with that same mutex, then unlock that
mutex; the drain hook comes after the lock, before the wait and before the unlock, and the
mutex is locked once and unlocked once on every path. The state the call ends in is the
composition of these effects in this order. -/
theorem wait_on_sched_event_order {σ : Type} (build : Build) (env : Env σ)
    (policy : sched_policy_s) (s : σ) (g : FnPtr) (q : jobq_s)
    (hq : policy.get_local_queue = some g)
    (hqueue : (env.get_local_queue g policy s).1 = some q) :
    (wait_on_sched_event build env policy s).calls
      = [Call.get_local_queue g, Call.pthread_mutex_lock q, Call.get_local_memory_node,
          Call.handle_all_pending_node_data_requests
            (env.get_local_memory_node
              (env.pthread_mutex_lock q (env.get_local_queue g policy s).2)).1,
          Call.machine_is_running]
        ++ (if (env.machine_is_running
              (state_at_running_check env q (env.get_local_queue g policy s).2)).1 = true
            ∧ build.NON_BLOCKING_DRIVERS = false then [Call.pthread_cond_wait q q] else [])
        ++ [Call.pthread_mutex_unlock q]
    ∧ ((wait_on_sched_event build env policy s).calls.filter Call.is_drain).length = 1
    ∧ ((wait_on_sched_event build env policy s).calls.filter Call.is_mutex_lock).length = 1
    ∧ ((wait_on_sched_event build env policy s).calls.filter Call.is_mutex_unlock).length = 1
    ∧ (wait_on_sched_event build env policy s).calls.getLast? = some (Call.pthread_mutex_unlock q)
    ∧ (∀ before after node,
        (wait_on_sched_event build env policy s).calls
          = before ++ Call.handle_all_pending_node_data_requests node :: after →
        Call.pthread_mutex_lock q ∈ before
        ∧ (∀ c ∈ before, c.is_mutex_unlock = false ∧ c.is_cond_wait = false)
        ∧ Call.pthread_mutex_unlock q ∈ after)
    ∧ (wait_on_sched_event build env policy s).state
      = (if (env.machine_is_running
              (env.handle_all_pending_node_data_requests
                (env.get_local_memory_node
                  (env.pthread_mutex_lock q (env.get_local_queue g policy s).2)).1
                (env.get_local_memory_node
                  (env.pthread_mutex_lock q (env.get_local_queue g policy s).2)).2)).1 = true
            ∧ build.NON_BLOCKING_DRIVERS = false then
          env.pthread_mutex_unlock q
            (env.pthread_cond_wait q
              (env.machine_is_running
                (env.handle_all_pending_node_data_requests
                  (env.get_local_memory_node
                    (env.pthread_mutex_lock q (env.get_local_queue g policy s).2)).1
                  (env.get_local_memory_node
                    (env.pthread_mutex_lock q (env.get_local_queue g policy s).2)).2)).2)
        else
          env.pthread_mutex_unlock q
            (env.machine_is_running
              (env.handle_all_pending_node_data_requests
                (env.get_local_memory_node
                  (env.pthread_mutex_lock q (env.get_local_queue g policy s).2)).1
                (env.get_local_memory_node
                  (env.pthread_mutex_lock q (env.get_local_queue g policy s).2)).2)).2) := by
  have hdrain : ∀ (l : List Call) (before after : List Call) (node : Nat),
      l = before ++ Call.handle_all_pending_node_data_requests node :: after →
      ∀ (pre post : List Call) (n : Nat),
      l = pre ++ Call.handle_all_pending_node_data_requests n :: post →
      (∀ c ∈ pre, c.is_drain = false) → (∀ c ∈ post, c.is_drain = false) →
      before = pre ∧ after = post := by
    intro l before after node hl pre post n hl2 hpre hpost
    subst hl
    induction before generalizing pre with
    | nil =>
      cases pre with
      | nil => simp at hl2; exact ⟨rfl, hl2.2⟩
      | cons c pre =>
        simp at hl2
        have := hpre c (by simp)
        rw [← hl2.1] at this
        simp [Call.is_drain] at this
    | cons b before ih =>
      cases pre with
      | nil =>
        simp at hl2
        have hmem : Call.handle_all_pending_node_data_requests node ∈ post := by
          rw [← hl2.2]; simp
        have := hpost _ hmem
        simp [Call.is_drain] at this
      | cons c pre =>
        simp at hl2
        obtain ⟨h1, h2⟩ := ih pre (fun c hc => hpre c (List.mem_cons_of_mem _ hc))
          (by simpa using hl2.2)
        exact ⟨by rw [hl2.1, h1], h2⟩
  rw [wait_on_sched_event_eq build env policy s g q hq hqueue]
  by_cases h : (env.machine_is_running
      (state_at_running_check env q (env.get_local_queue g policy s).2)).1 = true
      ∧ build.NON_BLOCKING_DRIVERS = false
  · have h2 := h
    unfold state_at_running_check at h2
    rw [if_pos h, if_pos h, if_pos h2]
    refine ⟨by simp, by simp [Call.is_drain], by simp [Call.is_mutex_lock],
      by simp [Call.is_mutex_unlock], by simp, ?_, rfl⟩
    intro before after node hcalls
    obtain ⟨h1, h2⟩ := hdrain _ before after node hcalls
      [Call.get_local_queue g, Call.pthread_mutex_lock q, Call.get_local_memory_node]
      [Call.machine_is_running, Call.pthread_cond_wait q q, Call.pthread_mutex_unlock q]
      _ rfl (by simp [Call.is_drain]) (by simp [Call.is_drain])
    subst h1 h2
    simp [Call.is_mutex_unlock, Call.is_cond_wait]
  · have h2 := h
    unfold state_at_running_check at h2
    rw [if_neg h, if_neg h, if_neg h2]
    refine ⟨by simp, by simp [Call.is_drain], by simp [Call.is_mutex_lock],
      by simp [Call.is_mutex_unlock], by simp, ?_, rfl⟩
    intro before after node hcalls
    obtain ⟨h1, h2⟩ := hdrain _ before after node hcalls
      [Call.get_local_queue g, Call.pthread_mutex_lock q, Call.get_local_memory_node]
      [Call.machine_is_running, Call.pthread_mutex_unlock q]
      _ rfl (by simp [Call.is_drain]) (by simp [Call.is_drain])
    subst h1 h2
    simp [Call.is_mutex_unlock, Call.is_cond_wait]

/-- On the concrete machine the blocking build locks, drains node 0, checks, waits, unlocks;
with effects that leave a mark the final state shows them in this order. -/
theorem wait_on_sched_event_order_witness :
    demo_policy_object.get_local_queue = some 3
    ∧ ((demo_env none).get_local_queue 3 demo_policy_object []).1 = some demo_queue
    ∧ (wait_on_sched_event demo_blocking_build (demo_env none) demo_policy_object []).calls
      = [Call.get_local_queue 3, Call.pthread_mutex_lock demo_queue,
          Call.get_local_memory_node, Call.handle_all_pending_node_data_requests 0,
          Call.machine_is_running, Call.pthread_cond_wait demo_queue demo_queue,
          Call.pthread_mutex_unlock demo_queue]
    ∧ (wait_on_sched_event demo_blocking_build demo_env_marking demo_policy_object []).state
      = [1, 2, 3, 4] :=
  ⟨rfl, rfl,
    (wait_on_sched_event_order demo_blocking_build (demo_env none) demo_policy_object []
      3 demo_queue rfl rfl).1.trans (by decide),
    (wait_on_sched_event_order demo_blocking_build demo_env_marking demo_policy_object []
      3 demo_queue rfl rfl).2.2.2.2.2.2.trans (by decide)⟩

/-! ## Pinned jobs and device capability -/

/-- C14: with `push_local_task` as the spec describes it, a job with a codelet that is pinned
to a worker which cannot execute the codelet makes `push_task` return the distinguished
no-device status, which is not 0, by a normal return (no abort), and the job is not placed in
the queue of that worker: the state is the one in which `push_local_task` was called. -/
theorem push_task_pinned_no_device {σ : Type} (env : Env σ) (policy : sched_policy_s)
    (j : job_s) (s : σ) (g : FnPtr) (can_execute : Nat → job_s → σ → Bool)
    (enqueue : Nat → job_s → σ → σ)
    (hpush : ∀ w job st, env.push_local_task w job st
      = push_local_task_spec can_execute enqueue w job st)
    (hq : policy.get_local_queue = some g) (hcl : j.task.cl ≠ none)
    (hpin : j.task.execute_on_a_specific_worker ≠ 0)
    (hcap : can_execute
      (env.get_worker_struct j.task.workerid (env.get_local_queue g policy s).2).1 j
      (env.get_worker_struct j.task.workerid (env.get_local_queue g policy s).2).2 = false) :
    (push_task env policy j s).out = Outcome.value NO_DEVICE_STATUS
    ∧ NO_DEVICE_STATUS ≠ 0
    ∧ (push_task env policy j s).out ≠ Outcome.value 0
    ∧ (push_task env policy j s).out ≠ Outcome.abort
    ∧ (push_task env policy j s).state
      = (env.get_worker_struct j.task.workerid (env.get_local_queue g policy s).2).2
    ∧ (∀ c ∈ (push_task env policy j s).calls, c.is_queue_push_task = false) := by
  have h : push_task env policy j s =
      { calls := [Call.get_local_queue g, Call.get_worker_struct j.task.workerid,
          Call.push_local_task
            (env.get_worker_struct j.task.workerid (env.get_local_queue g policy s).2).1 j]
        state := (env.get_worker_struct j.task.workerid (env.get_local_queue g policy s).2).2
        out := Outcome.value NO_DEVICE_STATUS } := by
    simp [push_task, hq, hcl, hpin, hpush, push_local_task_spec, hcap]
  rw [h]
  simp [Call.is_queue_push_task, NO_DEVICE_STATUS]

/-- On the concrete machine worker 7 (address 1007) has no capable device: a job pinned to it
comes back with status -19 and the queue is as before. -/
theorem push_task_pinned_no_device_witness :
    (∀ w job st, (demo_env none).push_local_task w job st
      = push_local_task_spec (fun w _ _ => decide (w ≠ 1007))
          (fun _ job st => st ++ [job.addr]) w job st)
    ∧ demo_policy_object.get_local_queue = some 3 ∧ demo_unfit_job.task.cl ≠ none
    ∧ demo_unfit_job.task.execute_on_a_specific_worker ≠ 0
    ∧ (push_task (demo_env none) demo_policy_object demo_unfit_job [502]).out
      = Outcome.value (-19)
    ∧ (push_task (demo_env none) demo_policy_object demo_unfit_job [502]).state = [502] :=
  ⟨by intro w job st; by_cases h : w = 1007 <;> simp [demo_env, push_local_task_spec, h,
      NO_DEVICE_STATUS],
    rfl, by decide, by decide,
    (push_task_pinned_no_device (demo_env none) demo_policy_object demo_unfit_job [502] 3
      (fun w _ _ => decide (w ≠ 1007)) (fun _ job st => st ++ [job.addr])
      (by intro w job st; by_cases h : w = 1007 <;> simp [demo_env, push_local_task_spec, h,
        NO_DEVICE_STATUS])
      rfl (by decide) (by decide) (by decide)).1,
    (push_task_pinned_no_device (demo_env none) demo_policy_object demo_unfit_job [502] 3
      (fun w _ _ => decide (w ≠ 1007)) (fun _ job st => st ++ [job.addr])
      (by intro w job st; by_cases h : w = 1007 <;> simp [demo_env, push_local_task_spec, h,
        NO_DEVICE_STATUS])
      rfl (by decide) (by decide) (by decide)).2.2.2.2.1⟩

/-! ## Missing operations -/

/-- C15: a missing required operation is fatal and is neither called nor skipped:
`push_task` on a job with a codelet that is not pinned aborts by assertion when the local
queue has no `push_task` operation, `pop_task` (`pop_task_from_queue`) aborts when the queue
has no `pop_task` operation, and `pop_every_task` (`pop_every_task_from_queue`) aborts when
the queue has no `pop_every_task` operation; in each case the only call made is
`get_local_queue`, no job is handed over and no result is returned. -/
theorem missing_operation_aborts {σ : Type} (env : Env σ) (policy : sched_policy_s)
    (s : σ) (g : FnPtr) (q : jobq_s) (hq : policy.get_local_queue = some g)
    (hqueue : (env.get_local_queue g policy s).1 = some q) :
    (∀ j : job_s, j.task.cl ≠ none → j.task.execute_on_a_specific_worker = 0 →
      q.push_task = none →
        (push_task env policy j s).out = Outcome.abort
        ∧ (push_task env policy j s).calls = [Call.get_local_queue g]
        ∧ (∀ c ∈ (push_task env policy j s).calls, c.hands_over_job = false)
        ∧ (push_task env policy j s).state = (env.get_local_queue g policy s).2)
    ∧ (q.pop_task = none →
        (pop_task_from_queue env (some q) s).out = Outcome.abort
        ∧ (pop_task_from_queue env (some q) s).calls = []
        ∧ (pop_task env policy s).out = Outcome.abort
        ∧ (pop_task env policy s).calls = [Call.get_local_queue g]
        ∧ (pop_task env policy s).state = (env.get_local_queue g policy s).2)
    ∧ (∀ where_mask : Nat, q.pop_every_task = none →
        (pop_every_task_from_queue env (some q) where_mask s).out = Outcome.abort
        ∧ (pop_every_task_from_queue env (some q) where_mask s).calls = []
        ∧ (pop_every_task env policy where_mask s).out = Outcome.abort
        ∧ (pop_every_task env policy where_mask s).calls = [Call.get_local_queue g]
        ∧ (pop_every_task env policy where_mask s).state
          = (env.get_local_queue g policy s).2) := by
  refine ⟨?_, ?_, ?_⟩
  · intro j hcl hpin hop
    have h : push_task env policy j s =
        { calls := [Call.get_local_queue g], state := (env.get_local_queue g policy s).2
          out := Outcome.abort } := by
      simp [push_task, hq, hcl, hpin, hqueue, hop, STARPU_ASSERT]
    rw [h]
    simp [Call.hands_over_job]
  · intro hop
    rw [pop_task_eq env policy s g hq, hqueue, pop_task_from_queue_missing env q _ hop,
      pop_task_from_queue_missing env q _ hop]
    simp
  · intro where_mask hop
    rw [pop_every_task_eq env policy where_mask s g hq, hqueue,
      pop_every_task_from_queue_missing env q where_mask _ hop,
      pop_every_task_from_queue_missing env q where_mask _ hop]
    simp

/-- On the concrete machine with the bare queue, a push, a pop and a bulk pop all abort. -/
theorem missing_operation_aborts_witness :
    demo_policy_object.get_local_queue = some 3
    ∧ (demo_env_bare.get_local_queue 3 demo_policy_object [502]).1 = some demo_bare_queue
    ∧ (push_task demo_env_bare demo_policy_object demo_free_job [502]).out = Outcome.abort
    ∧ (pop_task demo_env_bare demo_policy_object [502]).out = Outcome.abort
    ∧ (pop_every_task demo_env_bare demo_policy_object 1 [502]).out = Outcome.abort :=
  ⟨rfl, rfl,
    ((missing_operation_aborts demo_env_bare demo_policy_object [502] 3 demo_bare_queue rfl
      rfl).1 demo_free_job (by decide) rfl rfl).1,
    ((missing_operation_aborts demo_env_bare demo_policy_object [502] 3 demo_bare_queue rfl
      rfl).2.1 rfl).2.2.1,
    ((missing_operation_aborts demo_env_bare demo_policy_object [502] 3 demo_bare_queue rfl
      rfl).2.2 1 rfl).2.2.1⟩

/-! ## Shutdown -/

theorem deinit_sched_policy_present {σ : Type} (env : Env σ) (config : machine_config_s)
    (policy : sched_policy_s) (s : σ) (f : FnPtr) (hop : policy.deinit_sched = some f) :
    deinit_sched_policy env config policy s =
      { calls := [Call.deinit_sched f, Call.pthread_key_delete, Call.pthread_mutex_destroy,
          Call.pthread_cond_destroy]
        state := ({ (env.deinit_sched f config policy s).1 with
          local_queue_key := ObjState.dead
          sched_activity_mutex := ObjState.dead
          sched_activity_cond := ObjState.dead }, (env.deinit_sched f config policy s).2)
        out := Outcome.value () } := by
  simp [deinit_sched_policy, hop]

theorem deinit_sched_policy_absent {σ : Type} (env : Env σ) (config : machine_config_s)
    (policy : sched_policy_s) (s : σ) (hop : policy.deinit_sched = none) :
    deinit_sched_policy env config policy s =
      { calls := [Call.pthread_key_delete, Call.pthread_mutex_destroy,
          Call.pthread_cond_destroy]
        state := ({ policy with
          local_queue_key := ObjState.dead
          sched_activity_mutex := ObjState.dead
          sched_activity_cond := ObjState.dead }, s)
        out := Outcome.value () } := by
  simp [deinit_sched_policy, hop]

/-- C16: `deinit_sched_policy` runs to its end in every state of the policy record: it calls
the `deinit_sched` operation exactly once, with the configuration and the process-wide
record, when the operation is present, and not at all when it is absent, and in both cases
it goes on to release the thread-local queue key, the activity mutex and the activity
condition, in this order. -/
theorem deinit_sched_policy_calls {σ : Type} (env : Env σ) (config : machine_config_s)
    (policy : sched_policy_s) (s : σ) :
    (∀ f, policy.deinit_sched = some f →
      (deinit_sched_policy env config policy s).calls
        = [Call.deinit_sched f, Call.pthread_key_delete, Call.pthread_mutex_destroy,
            Call.pthread_cond_destroy]
      ∧ ((deinit_sched_policy env config policy s).calls.filter
          Call.is_deinit_sched).length = 1
      ∧ (deinit_sched_policy env config policy s).state.2
        = (env.deinit_sched f config policy s).2)
    ∧ (policy.deinit_sched = none →
      (deinit_sched_policy env config policy s).calls
        = [Call.pthread_key_delete, Call.pthread_mutex_destroy, Call.pthread_cond_destroy]
      ∧ ((deinit_sched_policy env config policy s).calls.filter
          Call.is_deinit_sched).length = 0
      ∧ (deinit_sched_policy env config policy s).state.2 = s)
    ∧ (deinit_sched_policy env config policy s).out = Outcome.value ()
    ∧ (∃ before, (deinit_sched_policy env config policy s).calls
        = before ++ [Call.pthread_key_delete, Call.pthread_mutex_destroy,
            Call.pthread_cond_destroy])
    ∧ (deinit_sched_policy env config policy s).state.1.local_queue_key = ObjState.dead
    ∧ (deinit_sched_policy env config policy s).state.1.sched_activity_mutex = ObjState.dead
    ∧ (deinit_sched_policy env config policy s).state.1.sched_activity_cond
      = ObjState.dead := by
  refine ⟨?_, ?_, rfl, ⟨_, rfl⟩, rfl, rfl, rfl⟩
  · intro f hop
    rw [deinit_sched_policy_present env config policy s f hop]
    simp [Call.is_deinit_sched]
  · intro hop
    rw [deinit_sched_policy_absent env config policy s hop]
    simp [Call.is_deinit_sched]

/-- On the concrete machine the operation at address 2 is called once before the three
releases, and a record that was never loaded is torn down with the three releases alone. -/
theorem deinit_sched_policy_calls_witness :
    (deinit_sched_policy (demo_env none) ⟨none⟩ demo_policy_object [502]).calls
      = [Call.deinit_sched 2, Call.pthread_key_delete, Call.pthread_mutex_destroy,
          Call.pthread_cond_destroy]
    ∧ (deinit_sched_policy (demo_env none) ⟨none⟩ demo_blank_policy [502]).calls
      = [Call.pthread_key_delete, Call.pthread_mutex_destroy, Call.pthread_cond_destroy] :=
  ⟨((deinit_sched_policy_calls (demo_env none) ⟨none⟩ demo_policy_object [502]).1 2 rfl).1,
    ((deinit_sched_policy_calls (demo_env none) ⟨none⟩ demo_blank_policy [502]).2.1 rfl).1⟩

/-- C17, as stated, fails: on the concrete machine, with a loaded policy that has no
`deinit_sched` operation, `deinit_sched_policy` makes exactly three calls, the three
releases; none of them is a broadcast, and the state of the collaborators is left as it
was. -/
theorem deinit_sched_policy_without_broadcast :
    ¬ (∃ c ∈ (deinit_sched_policy (demo_env none) ⟨none⟩ demo_live_policy [502]).calls,
        c.is_cond_broadcast = true)
    ∧ (deinit_sched_policy (demo_env none) ⟨none⟩ demo_live_policy [502]).calls
      = [Call.pthread_key_delete, Call.pthread_mutex_destroy, Call.pthread_cond_destroy]
    ∧ (deinit_sched_policy (demo_env none) ⟨none⟩ demo_live_policy [502]).state.2 = [502] := by
  refine ⟨by decide, by decide, by decide⟩

/-- C17, amended: `deinit_sched_policy` broadcasts no condition itself. Its calls are the
`deinit_sched` operation of the policy, when there is one, followed by the release of the
key, the mutex and the condition of the policy record; with no `deinit_sched` operation the
state of the collaborators is left as it was. -/
theorem deinit_sched_policy_never_broadcasts {σ : Type} (env : Env σ)
    (config : machine_config_s) (policy : sched_policy_s) (s : σ) :
    (∀ c ∈ (deinit_sched_policy env config policy s).calls, c.is_cond_broadcast = false)
    ∧ (∀ c ∈ (deinit_sched_policy env config policy s).calls,
        c.is_deinit_sched = true ∨ c = Call.pthread_key_delete
        ∨ c = Call.pthread_mutex_destroy ∨ c = Call.pthread_cond_destroy)
    ∧ (policy.deinit_sched = none →
        (deinit_sched_policy env config policy s).state.2 = s) := by
  cases hop : policy.deinit_sched with
  | none =>
    rw [deinit_sched_policy_absent env config policy s hop]
    simp [Call.is_cond_broadcast]
  | some f =>
    rw [deinit_sched_policy_present env config policy s f hop]
    simp [Call.is_cond_broadcast, Call.is_deinit_sched]

/-! ## The policy record is fixed once loaded -/

theorem load_sched_policy_some {σ : Type} (build : Build) (env : Env σ)
    (policy : sched_policy_s) (p : PolicyPtr) :
    (load_sched_policy build env policy (some p)).state =
      { policy with
        init_sched := (env.deref p).init_sched
        deinit_sched := (env.deref p).deinit_sched
        get_local_queue := (env.deref p).get_local_queue
        sched_activity_cond := ObjState.live
        sched_activity_mutex := ObjState.live
        local_queue_key := ObjState.live } := by
  simp [load_sched_policy, STARPU_ASSERT]

theorem push_task_keeps_policy_record {σ : Type} (env : Env (sched_policy_s × σ))
    (hkeep : keeps_policy_record env) (j : job_s) (w : sched_policy_s × σ) :
    (push_task env w.1 j w).state.1 = w.1 := by
  obtain ⟨hglq, hterm, hworker, hlocal, hqpush, _⟩ := hkeep
  unfold push_task
  split
  · rfl
  · dsimp only
    split_ifs
    · simp only [hterm, hglq]
    · simp only [hlocal, hworker, hglq]
    · split
      · simp only [hglq]
      · split
        · split
          · simp only [hqpush, hglq]
          · simp only [hglq]
        · simp only [hglq]
        · simp only [hglq]

theorem pop_task_keeps_policy_record {σ : Type} (env : Env (sched_policy_s × σ))
    (hkeep : keeps_policy_record env) (w : sched_policy_s × σ) :
    (pop_task env w.1 w).state.1 = w.1 := by
  obtain ⟨hglq, _, _, _, _, hpop, _⟩ := hkeep
  unfold pop_task
  split
  · rfl
  · dsimp only
    unfold pop_task_from_queue
    split
    · simp only [hglq]
    · split
      · split
        · simp only [hpop, hglq]
        · simp only [hglq]
      · simp only [hglq]
      · simp only [hglq]

theorem pop_every_task_keeps_policy_record {σ : Type} (env : Env (sched_policy_s × σ))
    (hkeep : keeps_policy_record env) (where_mask : Nat) (w : sched_policy_s × σ) :
    (pop_every_task env w.1 where_mask w).state.1 = w.1 := by
  obtain ⟨hglq, _, _, _, _, _, hpop, _⟩ := hkeep
  unfold pop_every_task
  split
  · rfl
  · dsimp only
    unfold pop_every_task_from_queue
    split
    · simp only [hglq]
    · split
      · split
        · simp only [hpop, hglq]
        · simp only [hglq]
      · simp only [hglq]
      · simp only [hglq]

theorem wait_on_sched_event_keeps_policy_record {σ : Type} (build : Build)
    (env : Env (sched_policy_s × σ)) (hkeep : keeps_policy_record env)
    (w : sched_policy_s × σ) :
    (wait_on_sched_event build env w.1 w).state.1 = w.1 := by
  obtain ⟨hglq, _, _, _, _, _, _, hlock, hunlock, hwait, hnode, hdrain, hrun⟩ := hkeep
  unfold wait_on_sched_event
  split
  · rfl
  · dsimp only
    split
    · simp only [hglq]
    · split_ifs
      · simp only [hunlock, hwait, hrun, hdrain, hnode, hlock, hglq]
      · simp only [hunlock, hrun, hdrain, hnode, hlock, hglq]

theorem demo_env_world_keeps_policy_record : keeps_policy_record demo_env_world := by
  refine ⟨?_, ?_, ?_, ?_, ?_, ?_, ?_, ?_, ?_, ?_, ?_, ?_, ?_⟩ <;> intros <;> rfl

/-- C18, as stated, fails: `get_local_queue` is handed the address of the record, and with a
policy whose `get_local_queue` function rewrites the record, the record that
`get_sched_policy` gives after `push_task`, `pop_task`, `pop_every_task` or
`wait_on_sched_event` differs from the one before: its `get_local_queue` operation
is 99 instead of 3, its `init_sched` and `deinit_sched` operations are gone. -/
theorem policy_record_rewritten_by_callee :
    get_sched_policy
        (push_task demo_env_rewriting demo_policy_object demo_free_job
          (demo_policy_object, [])).state
      ≠ get_sched_policy (demo_policy_object, ([] : List Nat))
    ∧ (get_sched_policy
        (push_task demo_env_rewriting demo_policy_object demo_free_job
          (demo_policy_object, [])).state).get_local_queue = some 99
    ∧ (get_sched_policy (demo_policy_object, ([] : List Nat))).get_local_queue = some 3
    ∧ (get_sched_policy
        (pop_task demo_env_rewriting demo_policy_object
          (demo_policy_object, [])).state).init_sched = none
    ∧ (get_sched_policy (demo_policy_object, ([] : List Nat))).init_sched = some 1
    ∧ (get_sched_policy
        (pop_every_task demo_env_rewriting demo_policy_object 1
          (demo_policy_object, [])).state).deinit_sched = none
    ∧ (get_sched_policy (demo_policy_object, ([] : List Nat))).deinit_sched = some 2
    ∧ (get_sched_policy
        (wait_on_sched_event demo_blocking_build demo_env_rewriting demo_policy_object
          (demo_policy_object, [])).state).get_local_queue = some 99 := by
  refine ⟨by decide, by decide, by decide, by decide, by decide, by decide, by decide,
    by decide⟩

/-- C18, amended: `push_task`, `pop_task`, `pop_every_task` and `wait_on_sched_event` write
nothing to the record themselves: whenever the collaborators they call leave the record as it
is, `get_sched_policy` gives the same record after the call as before, for every job, filter
and state and on every path, aborts and faults included. `load_sched_policy`, called by
`init_sched_policy`, assigns the three operations from the policy it is given, and
`deinit_sched_policy` leaves the three operations as its `deinit_sched` callee left them (as
they were, when there is no such callee). -/
theorem entry_points_keep_policy_record {σ : Type} (build : Build)
    (env : Env (sched_policy_s × σ)) (hkeep : keeps_policy_record env)
    (w : sched_policy_s × σ) :
    (∀ j : job_s, get_sched_policy (push_task env w.1 j w).state = get_sched_policy w)
    ∧ get_sched_policy (pop_task env w.1 w).state = get_sched_policy w
    ∧ (∀ where_mask : Nat,
        get_sched_policy (pop_every_task env w.1 where_mask w).state = get_sched_policy w)
    ∧ get_sched_policy (wait_on_sched_event build env w.1 w).state = get_sched_policy w
    ∧ (∀ (policy : sched_policy_s) (p : PolicyPtr),
        (load_sched_policy build env policy (some p)).state.init_sched
          = (env.deref p).init_sched
        ∧ (load_sched_policy build env policy (some p)).state.deinit_sched
          = (env.deref p).deinit_sched
        ∧ (load_sched_policy build env policy (some p)).state.get_local_queue
          = (env.deref p).get_local_queue)
    ∧ (∀ (config : machine_config_s) (policy : sched_policy_s) (f : FnPtr),
        policy.deinit_sched = some f →
        (deinit_sched_policy env config policy w).state.1.init_sched
          = (env.deinit_sched f config policy w).1.init_sched
        ∧ (deinit_sched_policy env config policy w).state.1.deinit_sched
          = (env.deinit_sched f config policy w).1.deinit_sched
        ∧ (deinit_sched_policy env config policy w).state.1.get_local_queue
          = (env.deinit_sched f config policy w).1.get_local_queue)
    ∧ (∀ (config : machine_config_s) (policy : sched_policy_s),
        policy.deinit_sched = none →
        (deinit_sched_policy env config policy w).state.1.init_sched = policy.init_sched
        ∧ (deinit_sched_policy env config policy w).state.1.deinit_sched
          = policy.deinit_sched
        ∧ (deinit_sched_policy env config policy w).state.1.get_local_queue
          = policy.get_local_queue) := by
  refine ⟨fun j => push_task_keeps_policy_record env hkeep j w,
    pop_task_keeps_policy_record env hkeep w,
    fun where_mask => pop_every_task_keeps_policy_record env hkeep where_mask w,
    wait_on_sched_event_keeps_policy_record build env hkeep w, ?_, ?_, ?_⟩
  · intro policy p
    rw [load_sched_policy_some build env policy p]
    exact ⟨rfl, rfl, rfl⟩
  · intro config policy f hop
    rw [deinit_sched_policy_present env config policy w f hop]
    exact ⟨rfl, rfl, rfl⟩
  · intro config policy hop
    rw [deinit_sched_policy_absent env config policy w hop]
    exact ⟨rfl, rfl, rfl⟩

/-- With collaborators that leave the record alone, the record is the same after a push that
queues job 502, while loading a policy into the blank record sets its `get_local_queue`
operation. -/
theorem entry_points_keep_policy_record_witness :
    keeps_policy_record demo_env_world
    ∧ get_sched_policy
        (push_task demo_env_world demo_policy_object demo_free_job
          (demo_policy_object, [])).state = demo_policy_object
    ∧ (push_task demo_env_world demo_policy_object demo_free_job
          (demo_policy_object, [])).state.2 = [502]
    ∧ (load_sched_policy demo_blocking_build demo_env_world demo_blank_policy
        (some PolicyPtr.sched_eager_policy)).state.get_local_queue = some 3
    ∧ demo_blank_policy.get_local_queue = none :=
  ⟨demo_env_world_keeps_policy_record,
    (entry_points_keep_policy_record demo_blocking_build demo_env_world
      demo_env_world_keeps_policy_record (demo_policy_object, [])).1 demo_free_job,
    by decide,
    ((entry_points_keep_policy_record demo_blocking_build demo_env_world
      demo_env_world_keeps_policy_record (demo_policy_object, [])).2.2.2.2.1
      demo_blank_policy PolicyPtr.sched_eager_policy).2.2.trans (by decide),
    rfl⟩

/-! ## Block-cyclic distribution of the LU example -/

theorem block_index_lt (p q a b : Nat) (ha : a < p) (hb : b < q) : b * p + a < p * q := by
  have h1 : b * p + a < (b + 1) * p := by
    rw [Nat.add_mul, Nat.one_mul]
    exact Nat.add_lt_add_left ha _
  have h2 : (b + 1) * p ≤ q * p := Nat.mul_le_mul_right p hb
  rw [Nat.mul_comm p q]
  exact Nat.lt_of_lt_of_le h1 h2

theorem get_block_rank_eq (p q i j : Nat) (hp : 1 ≤ p) (hq : 1 ≤ q) (hpq : p * q < 2 ^ 31) :
    get_block_rank p q i j = (((j % q) * p + i % p : Nat) : Int) := by
  have hi : i % p < p := Nat.mod_lt _ hp
  have hj : j % q < q := Nat.mod_lt _ hq
  have hlt : (j % q) * p + i % p < p * q := block_index_lt p q _ _ hi hj
  have hmul : (j % q) * p < 2 ^ 32 := by omega
  have hsum : (j % q) * p + i % p < 2 ^ 32 := by omega
  unfold get_block_rank int_of_unsigned
  rw [Nat.mod_eq_of_lt hmul, Nat.mod_eq_of_lt hsum, Nat.mod_eq_of_lt hsum]
  rw [if_pos (by omega)]

/-- C19: for a process grid with `p >= 1`, `q >= 1` and `p * q` representable as an `int`,
`get_block_rank(i, j)` is `(j mod q) * p + (i mod p)`, depends only on `(i mod p, j mod q)`
and, restricted to `0 <= i < p` and `0 <= j < q`, is a bijection onto `0 .. p * q - 1`; so
every block is owned by exactly one rank below `p * q`, and every rank owns a block as soon
as `nblocks >= max(p, q)`. -/
theorem get_block_rank_block_cyclic (p q : Nat) (hp : 1 ≤ p) (hq : 1 ≤ q)
    (hpq : p * q < 2 ^ 31) :
    (∀ i j, get_block_rank p q i j = (((j % q) * p + i % p : Nat) : Int))
    ∧ (∀ i j, get_block_rank p q i j = get_block_rank p q (i % p) (j % q))
    ∧ (∀ i j, 0 ≤ get_block_rank p q i j ∧ get_block_rank p q i j < ((p * q : Nat) : Int))
    ∧ (∀ i j i2 j2, i < p → j < q → i2 < p → j2 < q →
        get_block_rank p q i j = get_block_rank p q i2 j2 → i = i2 ∧ j = j2)
    ∧ (∀ r, r < p * q → ∃ i, i < p ∧ ∃ j, j < q ∧ get_block_rank p q i j = (r : Int))
    ∧ (∀ i j, ∃! r : Int, 0 ≤ r ∧ r < ((p * q : Nat) : Int) ∧ get_block_rank p q i j = r)
    ∧ (∀ nblocks, max p q ≤ nblocks → ∀ r, r < p * q →
        ∃ i, i < nblocks ∧ ∃ j, j < nblocks ∧ get_block_rank p q i j = (r : Int)) := by
  have hrange : ∀ i j, 0 ≤ get_block_rank p q i j
      ∧ get_block_rank p q i j < ((p * q : Nat) : Int) := by
    intro i j
    rw [get_block_rank_eq p q i j hp hq hpq]
    have hlt := block_index_lt p q (i % p) (j % q) (Nat.mod_lt _ hp) (Nat.mod_lt _ hq)
    exact ⟨Int.ofNat_nonneg _, by exact_mod_cast hlt⟩
  have hsurj : ∀ r, r < p * q →
      ∃ i, i < p ∧ ∃ j, j < q ∧ get_block_rank p q i j = (r : Int) := by
    intro r hr
    have hdiv : r / p < q := by
      rw [Nat.div_lt_iff_lt_mul hp, Nat.mul_comm]
      exact hr
    refine ⟨r % p, Nat.mod_lt _ hp, r / p, hdiv, ?_⟩
    rw [get_block_rank_eq p q _ _ hp hq hpq, Nat.mod_mod, Nat.mod_eq_of_lt hdiv]
    have := Nat.div_add_mod r p
    have h2 : r / p * p + r % p = r := by rw [Nat.mul_comm]; exact this
    exact_mod_cast h2
  refine ⟨fun i j => get_block_rank_eq p q i j hp hq hpq, ?_, hrange, ?_, hsurj, ?_, ?_⟩
  · intro i j
    rw [get_block_rank_eq p q i j hp hq hpq, get_block_rank_eq p q _ _ hp hq hpq,
      Nat.mod_mod, Nat.mod_mod]
  · intro i j i2 j2 hi hj hi2 hj2 h
    rw [get_block_rank_eq p q i j hp hq hpq, get_block_rank_eq p q i2 j2 hp hq hpq,
      Nat.mod_eq_of_lt hi, Nat.mod_eq_of_lt hj, Nat.mod_eq_of_lt hi2,
      Nat.mod_eq_of_lt hj2] at h
    have h2 : j * p + i = j2 * p + i2 := by exact_mod_cast h
    have hmod : (j * p + i) % p = (j2 * p + i2) % p := by rw [h2]
    have hdiv : (j * p + i) / p = (j2 * p + i2) / p := by rw [h2]
    rw [Nat.add_comm, Nat.add_mul_mod_self_right, Nat.add_comm (j2 * p),
      Nat.add_mul_mod_self_right, Nat.mod_eq_of_lt hi, Nat.mod_eq_of_lt hi2] at hmod
    rw [Nat.add_comm, Nat.add_mul_div_right _ _ hp, Nat.add_comm (j2 * p),
      Nat.add_mul_div_right _ _ hp, Nat.div_eq_of_lt hi, Nat.div_eq_of_lt hi2,
      Nat.zero_add, Nat.zero_add] at hdiv
    exact ⟨hmod, hdiv⟩
  · intro i j
    exact ⟨get_block_rank p q i j, ⟨(hrange i j).1, (hrange i j).2, rfl⟩,
      fun r hr => hr.2.2.symm⟩
  · intro nblocks hn r hr
    obtain ⟨i, hi, j, hj, h⟩ := hsurj r hr
    have h1 : p ≤ nblocks := le_trans (le_max_left p q) hn
    have h2 : q ≤ nblocks := le_trans (le_max_right p q) hn
    exact ⟨i, lt_of_lt_of_le hi h1, j, lt_of_lt_of_le hj h2, h⟩

/-- On a 2 x 3 grid block (5, 7) belongs to rank 3, as block (1, 1) does. -/
theorem get_block_rank_block_cyclic_witness :
    1 ≤ 2 ∧ 1 ≤ 3 ∧ 2 * 3 < 2 ^ 31
    ∧ get_block_rank 2 3 5 7 = 3 ∧ get_block_rank 2 3 5 7 = get_block_rank 2 3 1 1 :=
  ⟨by decide, by decide, by decide,
    ((get_block_rank_block_cyclic 2 3 (by decide) (by decide) (by decide)).1 5 7).trans
      (by decide),
    ((get_block_rank_block_cyclic 2 3 (by decide) (by decide) (by decide)).2.1 5 7).trans
      (by decide)⟩

/-! ## OpenMP parallel regions -/

theorem malloc_of_budget (h : omp_heap) (hb : 0 < h.budget) :
    malloc h = (some h.next, { next := h.next + 1, budget := h.budget - 1 }) := by
  have : h.budget ≠ 0 := Nat.pos_iff_ne_zero.mp hb
  simp [malloc, this]

theorem create_omp_thread_struct_of_budget (owner_region : Option Nat) (h : omp_heap)
    (hb : 0 < h.budget) :
    create_omp_thread_struct owner_region h =
      (Outcome.value
        { addr := h.next, current_task := none, owner_region := owner_region
          primary_task := none, initial_thread_stack := none },
        { next := h.next + 1, budget := h.budget - 1 }) := by
  simp [create_omp_thread_struct, malloc_of_budget h hb]

theorem create_omp_task_struct_of_budget (parent_task : Nat) (owner_thread : Option Nat)
    (owner_region : Option Nat) (is_implicit : Int) (h : omp_heap) (hb : 2 ≤ h.budget) :
    create_omp_task_struct (some parent_task) owner_thread owner_region is_implicit h =
      (Outcome.value
        { addr := h.next, parent_task := some parent_task, owner_thread := owner_thread
          owner_region := owner_region, is_implicit := is_implicit
          stack := some (h.next + 1) },
        { next := h.next + 1 + 1, budget := h.budget - 1 - 1 }) := by
  have h1 : 0 < h.budget := by omega
  have h2 : 0 < ({ next := h.next + 1, budget := h.budget - 1 } : omp_heap).budget := by
    simp only; omega
  simp [create_omp_task_struct, malloc_of_budget h h1, malloc_of_budget _ h2]

theorem create_omp_region_struct_of_budget (parent_region : Option starpu_omp_region)
    (owner_device : Option Nat) (nb_threads : Int) (h : omp_heap) (hb : 0 < h.budget) :
    create_omp_region_struct parent_region owner_device nb_threads h =
      (Outcome.value
        { addr := h.next
          parent_region := parent_region.map (fun r => r.addr)
          initial_nested_region := none
          owner_device := owner_device
          thread_list := []
          implicit_task_list := []
          nb_threads := nb_threads
          level := match parent_region with
            | some r => int_wrap (r.level + 1)
            | none => 0 },
        { next := h.next + 1, budget := h.budget - 1 }) := by
  simp [create_omp_region_struct, malloc_of_budget h hb]

theorem int_wrap_of_range (x : Int) (h1 : -2 ^ 31 ≤ x) (h2 : x < 2 ^ 31) : int_wrap x = x := by
  unfold int_wrap
  omega

theorem parallel_region_loop_eq (master_thread : starpu_omp_thread)
    (parent_task : starpu_omp_task) (a : Nat) (remaining : Nat) :
    ∀ (i : Nat) (new_region : starpu_omp_region) (h : omp_heap), new_region.addr = a →
    h.next = (if i = 0 then a + 1 else a + 3 * i) → 3 * remaining ≤ h.budget →
    ∃ h2,
      parallel_region_loop (some master_thread) parent_task remaining (i : Int) new_region h
        = (Outcome.value
            { new_region with
              thread_list := new_region.thread_list
                ++ (List.range' i remaining).map (parallel_region_thread a master_thread)
              implicit_task_list := new_region.implicit_task_list
                ++ (List.range' i remaining).map
                    (parallel_region_task a master_thread parent_task) }, h2)
      ∧ h2.next = (if i + remaining = 0 then a + 1 else a + 3 * (i + remaining)) := by
  induction remaining with
  | zero =>
    intro i new_region h _ hn _
    exact ⟨h, by simp [parallel_region_loop], by simpa using hn⟩
  | succ k ih =>
    intro i new_region h ha hn hb
    by_cases hi : i = 0
    · subst hi
      have hn1 : h.next = a + 1 := by simpa using hn
      have htask := create_omp_task_struct_of_budget parent_task.addr
        (some master_thread.addr) (some new_region.addr) 1 h (by omega)
      obtain ⟨h2, heq, hnext⟩ := ih 1
        { new_region with
          thread_list := new_region.thread_list ++ [master_thread]
          implicit_task_list := new_region.implicit_task_list ++
            [{ addr := h.next, parent_task := some parent_task.addr
               owner_thread := some master_thread.addr, owner_region := some new_region.addr
               is_implicit := 1, stack := some (h.next + 1) }] }
        { next := h.next + 1 + 1, budget := h.budget - 1 - 1 } ha
        (by show h.next + 1 + 1 = _; rw [hn1]; simp) (by simp only; omega)
      refine ⟨h2, ?_, ?_⟩
      · rw [parallel_region_loop]
        simp only [Nat.cast_zero, if_true]
        rw [htask]
        simp only
        have hcast : ((0 : Int) + 1) = ((1 : Nat) : Int) := by norm_num
        rw [hcast, heq]
        simp [List.range'_succ, parallel_region_thread, parallel_region_task, ha, hn1]
      · rw [hnext]; simp; omega
    · have hn1 : h.next = a + 3 * i := by simpa [hi] using hn
      have hthread := create_omp_thread_struct_of_budget (some new_region.addr) h (by omega)
      have htask := create_omp_task_struct_of_budget parent_task.addr
        (some h.next) (some new_region.addr) 1
        { next := h.next + 1, budget := h.budget - 1 } (by simp only; omega)
      obtain ⟨h2, heq, hnext⟩ := ih (i + 1)
        { new_region with
          thread_list := new_region.thread_list ++
            [{ addr := h.next, current_task := none, owner_region := some new_region.addr
               primary_task := none, initial_thread_stack := none }]
          implicit_task_list := new_region.implicit_task_list ++
            [{ addr := h.next + 1, parent_task := some parent_task.addr
               owner_thread := some h.next, owner_region := some new_region.addr
               is_implicit := 1, stack := some (h.next + 1 + 1) }] }
        { next := h.next + 1 + 1 + 1, budget := h.budget - 1 - 1 - 1 } ha
        (by show h.next + 1 + 1 + 1 = _; rw [hn1]; simp; omega) (by simp only; omega)
      refine ⟨h2, ?_, ?_⟩
      · rw [parallel_region_loop]
        have hi2 : ¬ ((i : Int) = 0) := by exact_mod_cast hi
        simp only [hi2, if_false]
        rw [hthread]
        simp only
        rw [htask]
        simp only
        have hcast : ((i : Int) + 1) = ((i + 1 : Nat) : Int) := by push_cast; rfl
        rw [hcast, heq]
        simp [List.range'_succ, parallel_region_thread, parallel_region_task, ha, hn1, hi]
      · rw [hnext]; simp; omega

theorem starpu_parallel_region_eq (cpu_worker_count : Nat) (initial_device : Option Nat)
    (keys : omp_thread_specific) (regions : List starpu_omp_region) (h : omp_heap)
    (master_thread : starpu_omp_thread) (parent_task : starpu_omp_task)
    (parent_region : starpu_omp_region)
    (hthread : keys.omp_thread_key = some master_thread)
    (htask : keys.omp_task_key = some parent_task)
    (hregion : region_at regions parent_task.owner_region = some parent_region)
    (hcount : cpu_worker_count < 2 ^ 31)
    (hlevel : -2 ^ 31 ≤ parent_region.level ∧ parent_region.level < 2 ^ 31 - 1)
    (hmem : 1 + 3 * (if parent_region.level = 0 then cpu_worker_count else 1) ≤ h.budget) :
    ∃ h2,
      starpu_parallel_region cpu_worker_count initial_device keys regions h =
        (Outcome.value
          { addr := h.next
            parent_region := some parent_region.addr
            initial_nested_region := none
            owner_device := initial_device
            thread_list :=
              (List.range (if parent_region.level = 0 then cpu_worker_count else 1)).map
                (parallel_region_thread h.next master_thread)
            implicit_task_list :=
              (List.range (if parent_region.level = 0 then cpu_worker_count else 1)).map
                (parallel_region_task h.next master_thread parent_task)
            nb_threads := 1
            level := parent_region.level + 1 }, h2)
      ∧ h2.next = (if (if parent_region.level = 0 then cpu_worker_count else 1) = 0
          then h.next + 1
          else h.next + 3 * (if parent_region.level = 0 then cpu_worker_count else 1)) := by
  have hn : (parallel_region_nb_threads cpu_worker_count parent_region).toNat
      = (if parent_region.level = 0 then cpu_worker_count else 1) := by
    unfold parallel_region_nb_threads int_of_unsigned
    by_cases hl : parent_region.level = 0
    · have h1 : cpu_worker_count % 2 ^ 32 = cpu_worker_count :=
        Nat.mod_eq_of_lt (by omega)
      rw [if_pos hl, if_pos hl, h1, if_pos hcount]
      exact Int.toNat_ofNat _
    · rw [if_neg hl, if_neg hl]
      rfl
  have hwrap : int_wrap (parent_region.level + 1) = parent_region.level + 1 :=
    int_wrap_of_range _ (by omega) (by omega)
  have hreg := create_omp_region_struct_of_budget (some parent_region) initial_device 1 h
    (by omega)
  obtain ⟨h2, heq, hnext⟩ :=
    parallel_region_loop_eq master_thread parent_task h.next
      (parallel_region_nb_threads cpu_worker_count parent_region).toNat 0
      { addr := h.next
        parent_region := (some parent_region).map (fun r => r.addr)
        initial_nested_region := none
        owner_device := initial_device
        thread_list := []
        implicit_task_list := []
        nb_threads := 1
        level := int_wrap (parent_region.level + 1) }
      { next := h.next + 1, budget := h.budget - 1 } rfl (by simp)
      (by rw [hn]; simp only; omega)
  refine ⟨h2, ?_, ?_⟩
  · unfold starpu_parallel_region
    rw [htask]
    simp only
    rw [hregion]
    simp only
    rw [hreg]
    simp only
    rw [hthread]
    have hcast : ((0 : Int)) = ((0 : Nat) : Int) := by norm_num
    rw [hcast, heq, hn, hwrap, List.range_eq_range']
    simp
  · rw [hnext, hn]
    simp

theorem starpu_parallel_region_without_task_key (cpu_worker_count : Nat)
    (initial_device : Option Nat) (keys : omp_thread_specific)
    (regions : List starpu_omp_region) (h : omp_heap) (htask : keys.omp_task_key = none) :
    starpu_parallel_region cpu_worker_count initial_device keys regions h
      = (Outcome.fault, h) := by
  unfold starpu_parallel_region
  rw [htask]

/-- C20: the level-1 parallel region spans all the threads and deeper regions have only one.
For a call that finds a thread and a task under the two thread-specific keys, with the
owner region of that task as parent region: when the parent region has level 0 the new
region gets exactly `starpu_cpu_worker_get_count()` threads in its `thread_list` (the master
thread first, then new threads whose owner region is the new region) and as many implicit
tasks in its `implicit_task_list` (one per thread, in the same order), and otherwise exactly
one thread, the master thread, and one implicit task; the level of the new region is the
level of the parent plus one. Memory is assumed to suffice (one object for the region and
at most three per thread), the worker count to fit an `int`, and the parent level to be an
`int` below the largest one. -/
theorem starpu_parallel_region_threads (cpu_worker_count : Nat) (initial_device : Option Nat)
    (keys : omp_thread_specific) (regions : List starpu_omp_region) (h : omp_heap)
    (master_thread : starpu_omp_thread) (parent_task : starpu_omp_task)
    (parent_region : starpu_omp_region)
    (hthread : keys.omp_thread_key = some master_thread)
    (htask : keys.omp_task_key = some parent_task)
    (hregion : region_at regions parent_task.owner_region = some parent_region)
    (hcount : cpu_worker_count < 2 ^ 31)
    (hlevel : -2 ^ 31 ≤ parent_region.level ∧ parent_region.level < 2 ^ 31 - 1)
    (hmem : 1 + 3 * (if parent_region.level = 0 then cpu_worker_count else 1) ≤ h.budget) :
    ∃ new_region h2,
      starpu_parallel_region cpu_worker_count initial_device keys regions h
        = (Outcome.value new_region, h2)
      ∧ new_region.thread_list.length
        = (if parent_region.level = 0 then cpu_worker_count else 1)
      ∧ new_region.implicit_task_list.length
        = (if parent_region.level = 0 then cpu_worker_count else 1)
      ∧ new_region.thread_list
        = (List.range (if parent_region.level = 0 then cpu_worker_count else 1)).map
            (fun i => if i = 0 then master_thread
              else
                { addr := h.next + 3 * i, current_task := none
                  owner_region := some new_region.addr, primary_task := none
                  initial_thread_stack := none })
      ∧ new_region.implicit_task_list
        = (List.range (if parent_region.level = 0 then cpu_worker_count else 1)).map
            (fun i =>
              { addr := h.next + 3 * i + 1
                parent_task := some parent_task.addr
                owner_thread := some (if i = 0 then master_thread.addr else h.next + 3 * i)
                owner_region := some new_region.addr
                is_implicit := 1
                stack := some (h.next + 3 * i + 2) })
      ∧ new_region.level = parent_region.level + 1
      ∧ new_region.parent_region = some parent_region.addr
      ∧ new_region.addr = h.next
      ∧ h2.next = (if (if parent_region.level = 0 then cpu_worker_count else 1) = 0
          then h.next + 1
          else h.next + 3 * (if parent_region.level = 0 then cpu_worker_count else 1)) := by
  obtain ⟨h2, heq, hnext⟩ := starpu_parallel_region_eq cpu_worker_count initial_device keys
    regions h master_thread parent_task parent_region hthread htask hregion hcount hlevel hmem
  refine ⟨_, h2, heq, ?_, ?_, ?_, ?_, rfl, rfl, rfl, hnext⟩
  · simp
  · simp
  · apply List.map_congr_left
    intro i _
    simp only [parallel_region_thread]
  · apply List.map_congr_left
    intro i _
    simp only [parallel_region_task, parallel_region_thread]
    by_cases hi : i = 0 <;> simp [hi]

/-- With three CPU workers the region opened from the initial task (level 0) gets three
threads and three implicit tasks at level 1, and the heap has handed out nine addresses;
on a thread where the keys were never set the call faults and allocates nothing. -/
theorem starpu_parallel_region_threads_witness :
    demo_keys.omp_thread_key = some demo_initial_thread
    ∧ demo_keys.omp_task_key = some demo_initial_task
    ∧ region_at [demo_initial_region] demo_initial_task.owner_region = some demo_initial_region
    ∧ (3 : Nat) < 2 ^ 31
    ∧ (-2 ^ 31 ≤ demo_initial_region.level ∧ demo_initial_region.level < 2 ^ 31 - 1)
    ∧ 1 + 3 * (if demo_initial_region.level = 0 then 3 else 1) ≤ demo_heap.budget
    ∧ ∃ new_region h2,
      starpu_parallel_region 3 (some 0) demo_keys [demo_initial_region] demo_heap
        = (Outcome.value new_region, h2)
      ∧ new_region.thread_list.length = 3
      ∧ new_region.implicit_task_list.length = 3
      ∧ new_region.level = 1
      ∧ h2.next = 19
      ∧ starpu_parallel_region 3 (some 0) demo_no_keys [demo_initial_region] demo_heap
        = (Outcome.fault, demo_heap) := by
  obtain ⟨new_region, h2, heq, hlen1, hlen2, _, _, hlevel, _, _, hnext⟩ :=
    starpu_parallel_region_threads 3 (some 0) demo_keys [demo_initial_region] demo_heap
      demo_initial_thread demo_initial_task demo_initial_region rfl rfl (by decide)
      (by decide) (by decide) (by decide)
  exact ⟨rfl, rfl, by decide, by decide, by decide, by decide, new_region, h2, heq,
    hlen1.trans (by decide), hlen2.trans (by decide), hlevel.trans (by decide),
    hnext.trans (by decide), rfl⟩

/-! ## Owner regions and thread counts of a new parallel region -/

set_option maxRecDepth 100000 in
theorem fndim_fill_eq :
    fndim_fill fndim_start =
      { ndim_arr := (List.range 360).map (fun (n : Nat) => some (n : Int))
        n := 360
        written := List.range 360
        in_bounds := true } := by
  decide

theorem fndim_fill_ndim_arr :
    (fndim_fill fndim_start).ndim_arr
      = (List.range 360).map (fun (n : Nat) => some (n : Int)) := by
  rw [fndim_fill_eq]

theorem fndim_fill_written : (fndim_fill fndim_start).written = List.range 360 := by
  rw [fndim_fill_eq]

theorem fndim_fill_cell (n : Nat) (hn : n < 360) :
    (fndim_fill fndim_start).ndim_arr.get? n = some (some (n : Int)) := by
  rw [fndim_fill_ndim_arr, List.get?_eq_getElem?, List.getElem?_map, List.getElem?_range hn]
  rfl

/-- C23: the initialisation loops of the 4D filter example write every cell of the
`NX*NY*NZ*NT = 360` cell array exactly once (the indices written are 0, 1, ..., 359, in this
order) and in bounds; the cell at linear index `l*NX*NY*NZ + k*NX*NY + j*NX + i` receives the
running counter, so that afterwards `ndim_arr[n] == n` for every `n` in `0..359`; and the
index formula is the one given by the leading dimensions `ldn = [1, NX, NX*NY, NX*NY*NZ]`. -/
theorem fndim_fill_identity :
    NX * NY * NZ * NT = 360
    ∧ (fndim_fill fndim_start).ndim_arr.length = 360
    ∧ (fndim_fill fndim_start).written = List.range 360
    ∧ (fndim_fill fndim_start).written.Nodup
    ∧ (∀ n, n < 360 → (fndim_fill fndim_start).written.count n = 1)
    ∧ (∀ x ∈ (fndim_fill fndim_start).written, x < 360)
    ∧ (fndim_fill fndim_start).in_bounds = true
    ∧ (∀ n, n < 360 → (fndim_fill fndim_start).ndim_arr.get? n = some (some (n : Int)))
    ∧ (∀ l k j i, l < NT → k < NZ → j < NY → i < NX →
        (l * NX * NY * NZ) + (k * NX * NY) + (j * NX) + i < 360
        ∧ (fndim_fill fndim_start).ndim_arr.get?
            ((l * NX * NY * NZ) + (k * NX * NY) + (j * NX) + i)
          = some (some ((((l * NZ + k) * NY + j) * NX + i : Nat) : Int)))
    ∧ (fndim_fill fndim_start).n = 360
    ∧ (∀ l k j i, (l * NX * NY * NZ) + (k * NX * NY) + (j * NX) + i
        = i * ldn.getD 0 0 + j * ldn.getD 1 0 + k * ldn.getD 2 0 + l * ldn.getD 3 0)
    ∧ nn = [6, 5, 4, 3] ∧ ldn = [1, 6, 30, 120] := by
  refine ⟨by decide, ?_, fndim_fill_written, ?_, ?_, ?_, ?_, fndim_fill_cell, ?_, ?_, ?_,
    by decide, by decide⟩
  · rw [fndim_fill_ndim_arr, List.length_map, List.length_range]
  · rw [fndim_fill_written]
    exact List.nodup_range 360
  · intro n hn
    rw [fndim_fill_written]
    exact List.count_eq_one_of_mem (List.nodup_range 360) (List.mem_range.mpr hn)
  · intro x hx
    rw [fndim_fill_written] at hx
    exact List.mem_range.mp hx
  · rw [fndim_fill_eq]
  · intro l k j i hl hk hj hi
    simp only [NX, NY, NZ, NT] at hl hk hj hi ⊢
    have hlt : l * 6 * 5 * 4 + k * 6 * 5 + j * 6 + i < 360 := by omega
    refine ⟨hlt, ?_⟩
    rw [fndim_fill_cell _ hlt]
    have : l * 6 * 5 * 4 + k * 6 * 5 + j * 6 + i = ((l * 4 + k) * 5 + j) * 6 + i := by ring
    rw [this]
  · rw [fndim_fill_eq]
  · intro l k j i
    simp only [ldn, NX, NY, NZ, List.getD_cons_zero, List.getD_cons_succ]
    ring

end StarPU
